import Mathlib

/-!
Verification of the consumer-side discovery and caching core of the
industry-core-hub backend.  The Python managers under
`managers/enablement_services/consumer/` are shallowly embedded: dictionaries
become association lists, threads become deterministic folds in launch order,
and all outbound I/O (connector discovery, catalog fetch, DTR lookup,
shell-descriptor fetch) is supplied through oracle functions.  Machine
integers are modelled as `Nat`; timestamps are abstract `Nat` instants.
-/

namespace ICH

/-- JSON values as consumed by the managers (catalog entries, policies,
shell-lookup responses, shell descriptors).  Objects are association lists in
insertion order, mirroring Python dict semantics. -/
inductive Json where
  | null : Json
  | bool (b : Bool) : Json
  | num (n : Int) : Json
  | str (s : String) : Json
  | arr (elems : List Json) : Json
  | obj (fields : List (String × Json)) : Json

mutual

def Json.decEq : (a b : Json) → Decidable (a = b)
  | .null, .null => isTrue rfl
  | .bool a, .bool b =>
      if h : a = b then isTrue (by rw [h]) else isFalse (by simp [h])
  | .num a, .num b =>
      if h : a = b then isTrue (by rw [h]) else isFalse (by simp [h])
  | .str a, .str b =>
      if h : a = b then isTrue (by rw [h]) else isFalse (by simp [h])
  | .arr xs, .arr ys =>
      match Json.decEqList xs ys with
      | isTrue h => isTrue (by rw [h])
      | isFalse h => isFalse (by simp [h])
  | .obj xs, .obj ys =>
      match Json.decEqFields xs ys with
      | isTrue h => isTrue (by rw [h])
      | isFalse h => isFalse (by simp [h])
  | .null, .bool _ | .null, .num _ | .null, .str _ | .null, .arr _ | .null, .obj _
  | .bool _, .null | .bool _, .num _ | .bool _, .str _ | .bool _, .arr _ | .bool _, .obj _
  | .num _, .null | .num _, .bool _ | .num _, .str _ | .num _, .arr _ | .num _, .obj _
  | .str _, .null | .str _, .bool _ | .str _, .num _ | .str _, .arr _ | .str _, .obj _
  | .arr _, .null | .arr _, .bool _ | .arr _, .num _ | .arr _, .str _ | .arr _, .obj _
  | .obj _, .null | .obj _, .bool _ | .obj _, .num _ | .obj _, .str _ | .obj _, .arr _ =>
      isFalse (by simp)

def Json.decEqList : (a b : List Json) → Decidable (a = b)
  | [], [] => isTrue rfl
  | [], _ :: _ => isFalse (by simp)
  | _ :: _, [] => isFalse (by simp)
  | x :: xs, y :: ys =>
      match Json.decEq x y, Json.decEqList xs ys with
      | isTrue h1, isTrue h2 => isTrue (by rw [h1, h2])
      | isFalse h1, _ => isFalse (by simp [h1])
      | _, isFalse h2 => isFalse (by simp [h2])

def Json.decEqFields : (a b : List (String × Json)) → Decidable (a = b)
  | [], [] => isTrue rfl
  | [], _ :: _ => isFalse (by simp)
  | _ :: _, [] => isFalse (by simp)
  | (k1, v1) :: xs, (k2, v2) :: ys =>
      if h0 : k1 = k2 then
        match Json.decEq v1 v2, Json.decEqFields xs ys with
        | isTrue h1, isTrue h2 => isTrue (by rw [h0, h1, h2])
        | isFalse h1, _ => isFalse (by simp [h1])
        | _, isFalse h2 => isFalse (by simp [h2])
      else isFalse (by simp [h0])

end

instance : DecidableEq Json := Json.decEq

/-- Python `dict.get` on a JSON object (first binding of the key). -/
def Json.get (j : Json) (k : String) : Option Json :=
  match j with
  | .obj fields => fields.lookup k
  | _ => none

/-- Python truthiness of a JSON value. -/
def Json.truthy : Json → Bool
  | .null => false
  | .bool b => b
  | .num n => n != 0
  | .str s => s != ""
  | .arr elems => !elems.isEmpty
  | .obj fields => !fields.isEmpty

/-- Python truthiness of an optional string (None and the empty string are
falsy). -/
def strOptTruthy : Option String → Bool
  | none => false
  | some s => s != ""

/-- `m[k]` lookup of a Python dict modelled as an association list. -/
def lookupKey {β : Type} (m : List (String × β)) (k : String) : Option β :=
  m.lookup k

/-- `m[k] = v` on a Python dict: replace in place if the key exists, else
append (insertion order is preserved, as in CPython). -/
def setKey {β : Type} : List (String × β) → String → β → List (String × β)
  | [], k, v => [(k, v)]
  | (k', v') :: rest, k, v =>
      if k' = k then (k, v) :: rest else (k', v') :: setKey rest k v

/-- `del m[k]` on a Python dict whose keys are unique: drop the first (only)
binding of `k`. -/
def eraseKey {β : Type} : List (String × β) → String → List (String × β)
  | [], _ => []
  | (k', v') :: rest, k =>
      if k' = k then rest else (k', v') :: eraseKey rest k

/-! ## PaginationManager (`dtr/pagination_manager.py`) -/

/-- `DtrPaginationState` dataclass: per-DTR sub-cursor. -/
structure DtrPaginationState where
  asset_id : String
  cursor : Option String
  exhausted : Bool
deriving DecidableEq

/-- `PageState` dataclass.  `previous_state` may nest arbitrarily deep in the
dataclass, which is why this is a recursive inductive; the codec below only
ever serializes one level. -/
inductive PageState where
  | mk (dtr_states : List (String × DtrPaginationState))
       (page_number : Nat) (limit : Option Nat)
       (previous_state : Option PageState)

def PageState.dtr_states : PageState → List (String × DtrPaginationState)
  | .mk d _ _ _ => d

def PageState.page_number : PageState → Nat
  | .mk _ n _ _ => n

def PageState.limit : PageState → Option Nat
  | .mk _ _ l _ => l

def PageState.previous_state : PageState → Option PageState
  | .mk _ _ _ p => p

/-- One per-DTR entry of the serialized token: the codec writes only the
cursor and the exhausted flag (the asset id is the surrounding map key). -/
structure TokenDtrEntry where
  cursor : Option String
  exhausted : Bool
deriving DecidableEq

/-- The serialized `previous_state` of a token (one level, no nesting). -/
structure TokenPrev where
  dtr_states : List (String × TokenDtrEntry)
  page_number : Nat
  limit : Option Nat
deriving DecidableEq

/-- The canonical content of a page token.  The Python codec transports this
structure as base64 of its JSON rendering; that transport is injective and
lossless for exactly these fields, so the embedding works on the structure
itself.  The malformed-token branch of `decode_page_token` (any string that
does not parse, degraded to an empty `PageState`) is outside this type. -/
structure TokenData where
  dtr_states : List (String × TokenDtrEntry)
  page_number : Nat
  limit : Option Nat
  previous_state : Option TokenPrev
deriving DecidableEq

/-- The per-DTR comprehension shared by both branches of
`encode_page_token`. -/
def encodeStates (sts : List (String × DtrPaginationState)) :
    List (String × TokenDtrEntry) :=
  sts.map (fun p => (p.1, { cursor := p.2.cursor, exhausted := p.2.exhausted }))

/-- `PaginationManager.encode_page_token`: serialize the page state, keeping
at most one level of `previous_state`. -/
def encode_page_token (page_state : PageState) : TokenData :=
  { dtr_states := encodeStates page_state.dtr_states
    page_number := page_state.page_number
    limit := page_state.limit
    previous_state := page_state.previous_state.map (fun prev =>
      { dtr_states := encodeStates prev.dtr_states
        page_number := prev.page_number
        limit := prev.limit }) }

/-- The per-DTR reconstruction shared by both branches of
`decode_page_token`: the asset id is recovered from the map key. -/
def decodeStates (sts : List (String × TokenDtrEntry)) :
    List (String × DtrPaginationState) :=
  sts.map (fun p =>
    (p.1, { asset_id := p.1, cursor := p.2.cursor, exhausted := p.2.exhausted }))

/-- `PaginationManager.decode_page_token` on a well-formed token.  The
reconstructed `previous_state` never carries its own `previous_state`. -/
def decode_page_token (t : TokenData) : PageState :=
  .mk (decodeStates t.dtr_states) t.page_number t.limit
    (t.previous_state.map (fun prev =>
      .mk (decodeStates prev.dtr_states) prev.page_number prev.limit none))

/-- `PaginationManager.distribute_limit`. -/
def distribute_limit (total_limit : Nat) (active_dtrs : Nat) : Nat :=
  if active_dtrs > 0 then max 1 (total_limit / active_dtrs) else total_limit

/-- `PaginationManager.has_more_data`. -/
def has_more_data (dtr_states : List (String × DtrPaginationState)) : Bool :=
  dtr_states.any (fun p => !p.2.exhausted)

/-- `PaginationManager.is_cursor_compatible`. -/
def is_cursor_compatible (page_state : PageState) (current_limit : Option Nat) :
    Bool :=
  match page_state.limit, current_limit with
  | none, _ => true
  | some _, none => false
  | some pl, some cl => pl = cl

/-- The data-model invariant of `PageState`: each entry of `dtr_states` is
keyed by the asset id it carries (every construction site of the source keys
the map this way), at the top level and inside `previous_state`. -/
def PageState.wellFormed (p : PageState) : Prop :=
  (∀ q ∈ p.dtr_states, q.2.asset_id = q.1) ∧
  (∀ prev, p.previous_state = some prev → ∀ q ∈ prev.dtr_states, q.2.asset_id = q.1)

theorem decodeStates_encodeStates (sts : List (String × DtrPaginationState))
    (h : ∀ q ∈ sts, q.2.asset_id = q.1) :
    decodeStates (encodeStates sts) = sts := by
  induction sts with
  | nil => rfl
  | cons hd tl ih =>
      obtain ⟨k, a, c, e⟩ := hd
      have h1 : a = k := h (k, ⟨a, c, e⟩) (List.mem_cons_self _ _)
      have ih' := ih (fun q hq => h q (List.mem_cons_of_mem _ hq))
      subst h1
      simp only [decodeStates, encodeStates, List.map_cons, List.map_map] at ih' ⊢
      exact List.cons_eq_cons.mpr ⟨rfl, ih'⟩

/-- C6: for every well-formed PageState p, decode(encode(p)) equals p on
dtrStates, pageNumber and limit, and its previousState is the one-level
flattened snapshot of p.previousState: same dtrStates, pageNumber and limit,
with no previousState of its own, so the serialized cursor never retains more
than one level of history. -/
theorem C6_cursor_roundtrip (p : PageState) (hwf : p.wellFormed) :
    (decode_page_token (encode_page_token p)).dtr_states = p.dtr_states ∧
    (decode_page_token (encode_page_token p)).page_number = p.page_number ∧
    (decode_page_token (encode_page_token p)).limit = p.limit ∧
    (decode_page_token (encode_page_token p)).previous_state =
      p.previous_state.map (fun prev =>
        PageState.mk prev.dtr_states prev.page_number prev.limit none) := by
  obtain ⟨d, n, l, prev⟩ := p
  obtain ⟨hw1, hw2⟩ := hwf
  have hd : decodeStates (encodeStates d) = d := decodeStates_encodeStates d hw1
  cases prev with
  | none =>
      exact ⟨by simpa [decode_page_token, encode_page_token, PageState.dtr_states] using hd,
        rfl, rfl, by simp [decode_page_token, encode_page_token, PageState.previous_state]⟩
  | some pr =>
      obtain ⟨pd, pn, pl, pprev⟩ := pr
      have hpd : decodeStates (encodeStates pd) = pd :=
        decodeStates_encodeStates pd (hw2 (PageState.mk pd pn pl pprev) rfl)
      refine ⟨by simpa [decode_page_token, encode_page_token, PageState.dtr_states] using hd,
        rfl, rfl, ?_⟩
      simp [decode_page_token, encode_page_token, PageState.previous_state,
        PageState.dtr_states, PageState.page_number, PageState.limit, hpd]

/-- A concrete PageState with two levels of history, used to instantiate the
C6 roundtrip theorem. -/
def pageStateExample : PageState :=
  PageState.mk [("asset-A", ⟨"asset-A", some "cur1", false⟩)] 2 (some 3)
    (some (PageState.mk [("asset-B", ⟨"asset-B", none, true⟩)] 1 (some 3)
      (some (PageState.mk [] 0 (some 3) none))))

theorem C6_cursor_roundtrip_witness :
    pageStateExample.wellFormed ∧
    ((decode_page_token (encode_page_token pageStateExample)).dtr_states =
        pageStateExample.dtr_states ∧
      (decode_page_token (encode_page_token pageStateExample)).page_number =
        pageStateExample.page_number ∧
      (decode_page_token (encode_page_token pageStateExample)).limit =
        pageStateExample.limit ∧
      (decode_page_token (encode_page_token pageStateExample)).previous_state =
        pageStateExample.previous_state.map (fun prev =>
          PageState.mk prev.dtr_states prev.page_number prev.limit none)) := by
  have hwf : pageStateExample.wellFormed := by
    constructor
    · intro q hq
      simp [pageStateExample, PageState.dtr_states] at hq
      simp [hq]
    · intro prev hprev q hq
      simp only [pageStateExample, PageState.previous_state, Option.some.injEq] at hprev
      subst hprev
      simp [PageState.dtr_states] at hq
      simp [hq]
  exact ⟨hwf, C6_cursor_roundtrip pageStateExample hwf⟩

/-! ## Timestamps -/

/-- Modelled from the spec: the SDK helper `op.get_future_timestamp` used by
both caches; spec 4.B installs `(bpn, result, now + TTL)` with the TTL given
in minutes. -/
def getFutureTimestamp (now minutes : Nat) : Nat := now + minutes * 60

/-- Modelled from the spec: the SDK helper `op.is_interval_reached`; spec 4.B
step 1 treats an entry as valid while `now ≤ expiresAt`. -/
def isIntervalReached (now endTimestamp : Nat) : Bool := endTimestamp < now

/-! ## ConnectorConsumerMemoryManager
(`connector/memory/connector_consumer_memory_manager.py`) -/

/-- One BPN entry of `known_connectors`: a Python dict that may hold the keys
`refresh_interval` and `connectors`. -/
structure ConnectorEntry where
  refresh_interval : Option Nat
  connectors : Option (List String)
deriving DecidableEq

def emptyConnectorEntry : ConnectorEntry := ⟨none, none⟩

/-- `add_connectors(bpn, connectors)` at instant `now`: always refreshes the
timestamp; skips the list update whenever a non-empty list is already
cached. -/
def add_connectors (expiration_time now : Nat)
    (known : List (String × ConnectorEntry)) (bpn : String)
    (connectors : List String) : List (String × ConnectorEntry) :=
  let entry0 := (lookupKey known bpn).getD emptyConnectorEntry
  let entry1 : ConnectorEntry :=
    { entry0 with refresh_interval := some (getFutureTimestamp now expiration_time) }
  match entry1.connectors with
  | some l =>
      if l.length > 0 then setKey known bpn entry1
      else setKey known bpn { entry1 with connectors := some connectors }
  | none => setKey known bpn { entry1 with connectors := some connectors }

/-- The cache-hit test of `get_connectors` (its step 1): the BPN entry must
hold both keys and the refresh interval must not be reached; on a hit the
cached list is returned, even when that cached list is empty. -/
def connector_cache_lookup (now : Nat) (known : List (String × ConnectorEntry))
    (bpn : String) : Option (List String) :=
  match lookupKey known bpn with
  | some e =>
      match e.refresh_interval, e.connectors with
      | some ts, some l => if isIntervalReached now ts then none else some l
      | _, _ => none
  | none => none

structure GetConnectorsOut where
  result : List String
  known : List (String × ConnectorEntry)
  discovery_invoked : Bool
deriving DecidableEq

/-- `get_connectors(bpn)`: cache-first lookup, then the discovery port
(oracle `discovery`, returning `none` for a null result); a null or empty
discovery result is returned as `[]` without touching the cache. -/
def get_connectors (expiration_time : Nat)
    (discovery : String → Option (List String)) (now : Nat)
    (known : List (String × ConnectorEntry)) (bpn : String) : GetConnectorsOut :=
  match connector_cache_lookup now known bpn with
  | some l => { result := l, known := known, discovery_invoked := false }
  | none =>
      match discovery bpn with
      | none => { result := [], known := known, discovery_invoked := true }
      | some cs =>
          if cs.isEmpty then
            { result := [], known := known, discovery_invoked := true }
          else
            { result := cs,
              known := add_connectors expiration_time now known bpn cs,
              discovery_invoked := true }

/-- `purge_bpn(bpn)` of the connector manager: an unguarded `del` that raises
`KeyError` when the BPN has no entry. -/
def connector_purge_bpn (known : List (String × ConnectorEntry)) (bpn : String) :
    Except String (List (String × ConnectorEntry)) :=
  if (lookupKey known bpn).isSome then .ok (eraseKey known bpn)
  else .error "KeyError"

/-! ## DtrConsumerMemoryManager: the DTR cache
(`dtr/memory/dtr_consumer_memory_manager.py`) -/

/-- A cached DTR: `_create_dtr_cache_entry`. -/
structure DtrCacheEntryData where
  connector_url : String
  asset_id : String
  policies : List Json
deriving DecidableEq

/-- One BPN entry of `known_dtrs`: a Python dict that may hold the keys
`refresh_interval` and `dtr_data`. -/
structure DtrBpnEntry where
  refresh_interval : Option Nat
  dtr_data : Option (List (String × DtrCacheEntryData))
deriving DecidableEq

def emptyDtrBpnEntry : DtrBpnEntry := ⟨none, none⟩

def _create_dtr_cache_entry (connector_url asset_id : String)
    (policies : List Json) : DtrCacheEntryData :=
  ⟨connector_url, asset_id, policies⟩

/-- `add_dtr(bpn, connector_url, asset_id, policies)` at instant `now`:
always refreshes the timestamp; idempotent on `(bpn, asset_id)`, the first
insertion wins. -/
def add_dtr (expiration_time now : Nat) (known : List (String × DtrBpnEntry))
    (bpn connector_url asset_id : String) (policies : List Json) :
    List (String × DtrBpnEntry) :=
  let entry0 := (lookupKey known bpn).getD emptyDtrBpnEntry
  let entry1 : DtrBpnEntry :=
    { entry0 with refresh_interval := some (getFutureTimestamp now expiration_time) }
  let data := entry1.dtr_data.getD []
  if (lookupKey data asset_id).isSome then
    setKey known bpn { entry1 with dtr_data := some data }
  else
    let data2 :=
      setKey data asset_id (_create_dtr_cache_entry connector_url asset_id policies)
    setKey known bpn { entry1 with dtr_data := some data2 }

/-- `purge_bpn(bpn)` of the DTR manager: membership-checked, a no-op for
unknown BPNs. -/
def dtr_purge_bpn (known : List (String × DtrBpnEntry)) (bpn : String) :
    List (String × DtrBpnEntry) :=
  if (lookupKey known bpn).isSome then eraseKey known bpn else known

/-- `_is_cache_expired(bpn)` of the DTR manager. -/
def dtr_is_cache_expired (now : Nat) (known : List (String × DtrBpnEntry))
    (bpn : String) : Bool :=
  match lookupKey known bpn with
  | none => true
  | some e =>
      match e.refresh_interval with
      | none => true
      | some ts => isIntervalReached now ts

/-! ## Association-list lemmas -/

theorem lookupKey_setKey {β : Type} (m : List (String × β)) (k : String) (v : β) :
    lookupKey (setKey m k v) k = some v := by
  induction m with
  | nil => simp [setKey, lookupKey, List.lookup]
  | cons hd tl ih =>
      obtain ⟨k', v'⟩ := hd
      by_cases h : k' = k
      · simp [setKey, h, lookupKey, List.lookup]
      · simp only [setKey, if_neg h, lookupKey, List.lookup] at ih ⊢
        have : (k == k') = false := by
          simp [beq_iff_eq]
          exact fun hh => h hh.symm
        simp [this, ih]

theorem lookupKey_eq_none_of_not_mem {β : Type} (m : List (String × β))
    (k : String) (h : k ∉ m.map Prod.fst) : lookupKey m k = none := by
  induction m with
  | nil => rfl
  | cons hd tl ih =>
      obtain ⟨k', v'⟩ := hd
      simp only [List.map_cons, List.mem_cons] at h
      push_neg at h
      simp only [lookupKey, List.lookup]
      have hbeq : (k == k') = false := by
        simp only [beq_eq_false_iff_ne, ne_eq]
        exact h.1
      rw [hbeq]
      exact ih h.2

theorem lookupKey_eraseKey_self {β : Type} (m : List (String × β)) (k : String)
    (hnd : (m.map Prod.fst).Nodup) :
    lookupKey (eraseKey m k) k = none := by
  induction m with
  | nil => rfl
  | cons hd tl ih =>
      obtain ⟨k', v'⟩ := hd
      simp only [List.map_cons, List.nodup_cons] at hnd
      by_cases h : k' = k
      · subst h
        simp only [eraseKey, if_pos rfl]
        exact lookupKey_eq_none_of_not_mem tl k' hnd.1
      · simp only [eraseKey, if_neg h, lookupKey, List.lookup]
        have hbeq : (k == k') = false := by
          simp only [beq_eq_false_iff_ne, ne_eq]
          exact fun hh => h hh.symm
        rw [hbeq]
        exact ih hnd.2

/-! ## C2: refresh semantics of the connector cache -/

/-- C2 counterexample: with a non-empty list ["c1"] cached for BPNL1,
addConnectors(BPNL1, ["c2"]) keeps ["c1"] stored (with a refreshed expiry)
instead of replacing it by ["c2"], so a refresh does keep the previously
stored list while extending the expiry timestamp. -/
theorem C2_refresh_keeps_old_list :
    lookupKey (add_connectors 60 1000
        [("BPNL1", ⟨some 900, some ["c1"]⟩)] "BPNL1" ["c2"]) "BPNL1" =
      some ⟨some (getFutureTimestamp 1000 60), some ["c1"]⟩ ∧
    ¬ lookupKey (add_connectors 60 1000
        [("BPNL1", ⟨some 900, some ["c1"]⟩)] "BPNL1" ["c2"]) "BPNL1" =
      some ⟨some (getFutureTimestamp 1000 60), some ["c2"]⟩ := by
  constructor
  · rfl
  · intro h
    simp [add_connectors, lookupKey, setKey, List.lookup, emptyConnectorEntry] at h

/-- C2 amended: for a BPN whose connector-cache entry holds a non-empty
connector list, addConnectors(bpn, newConnectors) keeps the stored list
unchanged and only refreshes the expiry to now + TTL (it extends the entry
rather than replacing the list); newConnectors is stored only when no
non-empty list is cached for the BPN. -/
theorem C2_refresh_extends_entry (expiration_time now : Nat)
    (known : List (String × ConnectorEntry)) (bpn : String)
    (newConnectors : List String) (e : ConnectorEntry) (l : List String)
    (he : lookupKey known bpn = some e) (hl : e.connectors = some l)
    (hne : l ≠ []) :
    lookupKey (add_connectors expiration_time now known bpn newConnectors) bpn =
      some { e with refresh_interval := some (getFutureTimestamp now expiration_time) } := by
  have hlen : l.length > 0 := List.length_pos.mpr hne
  simp only [add_connectors, he, Option.getD_some, hl, hlen, if_pos]
  exact lookupKey_setKey known bpn _

theorem C2_refresh_extends_entry_witness :
    lookupKey [("BPNL1", (⟨some 900, some ["c1"]⟩ : ConnectorEntry))] "BPNL1" =
      some ⟨some 900, some ["c1"]⟩ ∧
    (⟨some 900, some ["c1"]⟩ : ConnectorEntry).connectors = some ["c1"] ∧
    (["c1"] : List String) ≠ [] ∧
    lookupKey (add_connectors 60 1000
        [("BPNL1", ⟨some 900, some ["c1"]⟩)] "BPNL1" ["c2"]) "BPNL1" =
      some ⟨some (getFutureTimestamp 1000 60), some ["c1"]⟩ :=
  ⟨rfl, rfl, by decide,
    C2_refresh_extends_entry 60 1000 [("BPNL1", ⟨some 900, some ["c1"]⟩)]
      "BPNL1" ["c2"] ⟨some 900, some ["c1"]⟩ ["c1"] rfl rfl (by decide)⟩

/-! ## C10: purge guards -/

/-- C10: the connector-cache purgeBpn removes the entry and succeeds exactly
when the BPN has a cache entry, raising KeyError for every unknown BPN, while
the DTR-cache purgeBpn checks membership and is a no-op for unknown BPNs. -/
theorem C10_purge_guard :
    (∀ (known : List (String × ConnectorEntry)) (bpn : String),
      ((∃ r, connector_purge_bpn known bpn = .ok r) ↔
        (lookupKey known bpn).isSome = true) ∧
      (∀ r, connector_purge_bpn known bpn = .ok r → r = eraseKey known bpn) ∧
      ((known.map Prod.fst).Nodup → ∀ r, connector_purge_bpn known bpn = .ok r →
        lookupKey r bpn = none) ∧
      ((lookupKey known bpn).isSome = false →
        connector_purge_bpn known bpn = .error "KeyError")) ∧
    (∀ (kd : List (String × DtrBpnEntry)) (bpn : String),
      (lookupKey kd bpn).isSome = false → dtr_purge_bpn kd bpn = kd) := by
  constructor
  · intro known bpn
    refine ⟨⟨?_, ?_⟩, ?_, ?_, ?_⟩
    · rintro ⟨r, hr⟩
      by_contra hmem
      simp only [Bool.not_eq_true] at hmem
      simp [connector_purge_bpn, hmem] at hr
    · intro hmem
      exact ⟨eraseKey known bpn, by simp [connector_purge_bpn, hmem]⟩
    · intro r hr
      by_cases hmem : (lookupKey known bpn).isSome = true
      · simp only [connector_purge_bpn, hmem, if_pos, Except.ok.injEq] at hr
        exact hr.symm
      · simp only [Bool.not_eq_true] at hmem
        simp [connector_purge_bpn, hmem] at hr
    · intro hnd r hr
      by_cases hmem : (lookupKey known bpn).isSome = true
      · simp only [connector_purge_bpn, hmem, if_pos, Except.ok.injEq] at hr
        rw [← hr]
        exact lookupKey_eraseKey_self known bpn hnd
      · simp only [Bool.not_eq_true] at hmem
        simp [connector_purge_bpn, hmem] at hr
    · intro hmem
      simp [connector_purge_bpn, hmem]
  · intro kd bpn hmem
    simp [dtr_purge_bpn, hmem]

theorem C10_purge_guard_witness :
    ((lookupKey ([] : List (String × ConnectorEntry)) "BPNL9").isSome = false →
      connector_purge_bpn ([] : List (String × ConnectorEntry)) "BPNL9" =
        .error "KeyError") ∧
    ((lookupKey ([] : List (String × DtrBpnEntry)) "BPNL9").isSome = false →
      dtr_purge_bpn ([] : List (String × DtrBpnEntry)) "BPNL9" = []) ∧
    connector_purge_bpn ([] : List (String × ConnectorEntry)) "BPNL9" =
      .error "KeyError" ∧
    dtr_purge_bpn ([] : List (String × DtrBpnEntry)) "BPNL9" = [] := by
  refine ⟨(C10_purge_guard.1 [] "BPNL9").2.2.2, C10_purge_guard.2 [] "BPNL9", ?_, ?_⟩
  · exact (C10_purge_guard.1 [] "BPNL9").2.2.2 rfl
  · exact C10_purge_guard.2 [] "BPNL9" rfl

/-! ## Catalog constants and dataset helpers -/

def DCAT_DATASET_KEY : String := "dcat:dataset"

def ODRL_HAS_POLICY_KEY : String := "odrl:hasPolicy"

def ID_KEY : String := "@id"

/-- The single-quote character, U+0027. -/
def squote : String := String.singleton (Char.ofNat 39)

/-- Default `dct_type_id` of the DTR manager. -/
def dct_type_id : String := "dct:type"

/-- Default `dct_type_key` of the DTR manager: the filter path written with a
single-quote character around each segment. -/
def dct_type_key : String :=
  squote ++ "http://purl.org/dc/terms/type" ++ squote ++ "." ++ squote
    ++ ID_KEY ++ squote

/-- Default DTR taxonomy URI. -/
def dct_type : String := "https://w3id.org/catenax/taxonomy#DigitalTwinRegistry"

/-- Whether `pat` is an initial segment of `cs`. -/
def beginsWith : List Char → List Char → Bool
  | [], _ => true
  | _ :: _, [] => false
  | p :: ps, c :: cs => p == c && beginsWith ps cs

/-- Python `str.replace(pat, "")` on character lists, driven by a fuel that
is at least the input length. -/
def removeAllAux (pat : List Char) : Nat → List Char → List Char
  | 0, _ => []
  | _ + 1, [] => []
  | fuel + 1, c :: cs =>
      if beginsWith pat (c :: cs) && !pat.isEmpty then
        removeAllAux pat fuel (List.drop (pat.length - 1) cs)
      else c :: removeAllAux pat fuel cs

/-- Python `s.replace(pat, "")`: remove every occurrence of `pat`. -/
def removeAll (pat s : String) : String :=
  ⟨removeAllAux pat.data s.data.length s.data⟩

/-- `dct_type_key_base` as computed in `_is_dtr_asset`: the configured key
with the trailing quoted id segment removed (when the pattern is absent the
replacement leaves the key unchanged, matching the conditional of the
source).  The surrounding single quotes remain part of the key that is
looked up in the dataset. -/
def dct_type_key_base : String :=
  removeAll ("." ++ squote ++ ID_KEY ++ squote) dct_type_key

/-- The type-property check of `_is_dtr_asset`, applied to both the compact
and the expanded type property: a dict holding the taxonomy URI under the id
key, or the bare taxonomy URI string. -/
def dtrTypeMatch (p : Json) : Bool :=
  match p with
  | .obj fields =>
      match fields.lookup ID_KEY with
      | some (.str t) => t == dct_type
      | _ => false
  | .str s => s == dct_type
  | _ => false

/-- `_is_dtr_asset(dataset)`. -/
def _is_dtr_asset (dataset : Json) : Bool :=
  dtrTypeMatch ((dataset.get dct_type_id).getD (.obj [])) ||
  dtrTypeMatch ((dataset.get dct_type_key_base).getD (.obj []))

/-- The dict comprehension of `_extract_policies` that drops the id and type
metadata keys of one policy object. -/
def cleanPolicy (fields : List (String × Json)) : List (String × Json) :=
  fields.filter (fun p => p.1 != "@id" && p.1 != "@type")

/-- `_extract_policies(dataset)`: read the has-policy property, wrap a
non-list value into a singleton, strip the metadata keys from every
object-valued policy (dropping policies that become empty), keep string
policies as they are, and drop values of any other JSON type (they match
neither isinstance test of the source). -/
def _extract_policies (dataset : Json) : List Json :=
  let has_policy := (dataset.get ODRL_HAS_POLICY_KEY).getD (.arr [])
  let policyList :=
    match has_policy with
    | .arr elems => elems
    | other => [other]
  policyList.foldl (fun acc policy =>
    match policy with
    | .obj fields =>
        let clean := cleanPolicy fields
        if clean.isEmpty then acc else acc ++ [Json.obj clean]
    | .str s => acc ++ [Json.str s]
    | _ => acc) []

/-! ## System state and I/O oracles -/

/-- The mutable state of both managers plus the process-wide shell store. -/
structure SysState where
  known_connectors : List (String × ConnectorEntry)
  known_dtrs : List (String × DtrBpnEntry)
  shell_descriptors : List (String × Json)
deriving DecidableEq

/-- Outcome of one attempt of the `do_dsp` + shellsByAssetLink POST pair:
an exception (in negotiation or transport, with its message), an HTTP
response with a non-200 status, or a 200 response with a JSON body. -/
inductive AttemptOutcome where
  | raise (msg : String) : AttemptOutcome
  | fail (statusCode : Nat) : AttemptOutcome
  | ok (body : Json) : AttemptOutcome
deriving DecidableEq

/-- Oracles standing for all outbound I/O of the discovery path.
`connector_discovery` is the discovery port (`none` models a null result);
`catalogs` is the per-connector filtered DCAT fetch (`none` models a worker
that failed and wrote no entry); `lookupShells` is keyed by connector URL,
asset id, attempt number, per-DTR limit and per-DTR cursor (the query spec of
the call is fixed and folded into the oracle); `fetchDescriptor` is keyed by
asset id and shell id. -/
structure DiscoveryEnv where
  connector_discovery : String → Option (List String)
  catalogs : String → Option Json
  lookupShells : String → String → Nat → Option Nat → Option String → AttemptOutcome
  fetchDescriptor : String → String → Option Json

def jsonStringList (elems : List Json) : List String :=
  elems.filterMap (fun j => match j with | .str s => some s | _ => none)

/-- `_extract_shell_ids(shells_response)`: a dict shape holding a result
list, or a bare list; shell ids are strings (the wire format of spec §6). -/
def _extract_shell_ids (shells_response : Json) : List String :=
  match shells_response with
  | .obj fields =>
      match fields.lookup "result" with
      | some (.arr elems) => jsonStringList elems
      | _ => []
  | .arr elems => jsonStringList elems
  | _ => []

/-- The cursor that `discover_shells` later reads from the stored paging
metadata of a successful per-DTR result. -/
def pagingCursorOf (body : Json) : Option String :=
  match (body.get "paging_metadata").getD (.obj []) with
  | .obj fields =>
      match fields.lookup "cursor" with
      | some (.str s) => some s
      | _ => none
  | _ => none

/-- `_delete_connection`: deletes the EDR connection of the SDK connection
manager (external; counted by the caller) and removes the DTR from
`known_dtrs` so the problematic DTR is not retried. -/
def _delete_connection (st : SysState) (bpn asset_id : String) : SysState :=
  { st with known_dtrs :=
      match lookupKey st.known_dtrs bpn with
      | some entry =>
          match entry.dtr_data with
          | some data =>
              if (lookupKey data asset_id).isSome then
                setKey st.known_dtrs bpn
                  { entry with dtr_data := some (eraseKey data asset_id) }
              else st.known_dtrs
          | none => st.known_dtrs
      | none => st.known_dtrs }

/-- Store one fetched shell descriptor in the process-wide shell store, keyed
by its truthy id field. -/
def storeShell (st : SysState) (shell : Json) : SysState :=
  match shell.get "id" with
  | some (.str s) =>
      if s != "" then
        { st with shell_descriptors := setKey st.shell_descriptors s shell }
      else st
  | _ => st

/-! ## `_process_dtr_with_retry` -/

/-- One recorded shellsByAssetLink POST (instrumentation of the embedding). -/
structure LookupCall where
  connectorUrl : String
  assetId : String
  attempt : Nat
  limit : Option Nat
  cursor : Option String
deriving DecidableEq

/-- The per-DTR result dict built by `_process_dtr_with_retry`; the field
`paging_cursor` carries the cursor that `discover_shells` reads from the
stored paging metadata. -/
structure DtrResult where
  connectorUrl : String
  assetId : String
  status : String
  shellsFound : Nat
  shells : List String
  error : Option String
  paging_cursor : Option String
deriving DecidableEq

structure ProcOut where
  result : DtrResult
  state : SysState
  lookups : List LookupCall
  deleteCalls : Nat
deriving DecidableEq

/-- The retry loop of `_process_dtr_with_retry`: `remaining` attempts are
left and the next one carries number `attempt` (the source iterates attempts
0..maxRetries).  On a 200 response the shell ids are extracted, their
descriptors fetched (in parallel in the source, joined here in launch order)
and stored; building the paging-metadata field of the result then raises
AttributeError when the body is not a dict, which the except branch turns
into one more failed attempt. -/
def runAttempts (env : DiscoveryEnv) (bpn connectorUrl assetId : String)
    (limit : Option Nat) (cursor : Option String) (maxRetries : Nat) :
    Nat → Nat → SysState → DtrResult → List LookupCall → Nat → ProcOut
  | 0, _, st, res, lookups, dels =>
      { result := res, state := st, lookups := lookups, deleteCalls := dels }
  | remaining + 1, attempt, st, res, lookups, dels =>
      let call : LookupCall := ⟨connectorUrl, assetId, attempt, limit, cursor⟩
      let lookups := lookups ++ [call]
      match env.lookupShells connectorUrl assetId attempt limit cursor with
      | .ok body =>
          let shell_ids := _extract_shell_ids body
          let shells := shell_ids.filterMap (fun uuid => env.fetchDescriptor assetId uuid)
          let st := shells.foldl storeShell st
          match body with
          | .obj _ =>
              { result := { res with
                  status := "connected", shellsFound := shell_ids.length,
                  shells := shell_ids, paging_cursor := pagingCursorOf body }
                state := st, lookups := lookups, deleteCalls := dels }
          | _ =>
              let st := _delete_connection st bpn assetId
              let res :=
                if attempt == maxRetries then
                  { res with error := some "AttributeError" }
                else res
              runAttempts env bpn connectorUrl assetId limit cursor maxRetries
                remaining (attempt + 1) st res lookups (dels + 1)
      | .fail code =>
          let st := _delete_connection st bpn assetId
          let res :=
            if attempt == maxRetries then
              { res with error := some ("HTTP " ++ toString code ++ " after "
                ++ toString (maxRetries + 1) ++ " attempts") }
            else res
          runAttempts env bpn connectorUrl assetId limit cursor maxRetries
            remaining (attempt + 1) st res lookups (dels + 1)
      | .raise msg =>
          let st := _delete_connection st bpn assetId
          let res :=
            if attempt == maxRetries then { res with error := some msg } else res
          runAttempts env bpn connectorUrl assetId limit cursor maxRetries
            remaining (attempt + 1) st res lookups (dels + 1)

/-- `_process_dtr_with_retry(connector_service, counter_party_id, dtr,
query_spec, max_retries, limit, cursor)`: a DTR cached with an empty policy
list fails without any attempt; otherwise the retry loop runs. -/
def _process_dtr_with_retry (env : DiscoveryEnv) (bpn : String)
    (dtr : DtrCacheEntryData) (maxRetries : Nat) (limit : Option Nat)
    (cursor : Option String) (st : SysState) : ProcOut :=
  let res0 : DtrResult :=
    { connectorUrl := dtr.connector_url, assetId := dtr.asset_id,
      status := "failed", shellsFound := 0, shells := [], error := none,
      paging_cursor := none }
  if dtr.policies.isEmpty then
    { result := { res0 with error := some "No policies found" },
      state := st, lookups := [], deleteCalls := 0 }
  else
    runAttempts env bpn dtr.connector_url dtr.asset_id limit cursor maxRetries
      (maxRetries + 1) 0 st res0 [] 0

/-! ## `get_dtrs` -/

/-- One `add_dtr` call made during catalog ingestion (instrumentation). -/
structure IngestCall where
  bpn : String
  connectorUrl : String
  assetId : String
  policies : List Json
deriving DecidableEq

structure GetDtrsOut where
  result : List DtrCacheEntryData
  state : SysState
  discovery_path : Bool
  connector_discovery_invoked : Bool
  ingested : List IngestCall
deriving DecidableEq

/-- The cache-hit test of `get_dtrs`: the BPN entry exists, is not expired
and holds a non-empty DTR dict; on a hit the cached DTRs are returned. -/
def dtr_cache_lookup (now : Nat) (known : List (String × DtrBpnEntry))
    (bpn : String) : Option (List DtrCacheEntryData) :=
  match lookupKey known bpn with
  | some e =>
      if dtr_is_cache_expired now known bpn then none
      else
        match e.dtr_data with
        | some data => if data.length > 0 then some (data.map Prod.snd) else none
        | none => none
  | none => none

/-- The body of the dataset loop of `get_dtrs`: type check, asset-id
extraction (skipping falsy ids), policy extraction, `add_dtr`. -/
def ingestDataset (expiration_time now : Nat) (bpn connector_url : String)
    (acc : List (String × DtrBpnEntry) × List IngestCall) (dataset : Json) :
    List (String × DtrBpnEntry) × List IngestCall :=
  if _is_dtr_asset dataset then
    let asset_id :=
      match dataset.get ID_KEY with
      | some (.str s) => s
      | _ => ""
    if asset_id == "" then acc
    else
      let policies := _extract_policies dataset
      (add_dtr expiration_time now acc.1 bpn connector_url asset_id policies,
       acc.2 ++ [⟨bpn, connector_url, asset_id, policies⟩])
  else acc

/-- The datasets iterated for one harvested catalog: skipped entirely when
the catalog is falsy or carries a truthy error key; a non-list dataset value
is wrapped into a singleton when truthy. -/
def catalogDatasets (catalog : Json) : List Json :=
  if catalog.truthy && !((catalog.get "error").getD .null).truthy then
    match (catalog.get DCAT_DATASET_KEY).getD (.arr []) with
    | .arr elems => elems
    | other => if other.truthy then [other] else []
  else []

/-- `get_dtrs(bpn, timeout)`: cache-first, then connector resolution, then
the parallel catalog harvest (workers joined in launch order) and dataset
ingestion, finally returning the cached DTRs of the BPN. -/
def get_dtrs (env : DiscoveryEnv) (expiration_time now : Nat) (st0 : SysState)
    (bpn : String) : GetDtrsOut :=
  match dtr_cache_lookup now st0.known_dtrs bpn with
  | some cached =>
      { result := cached, state := st0, discovery_path := false,
        connector_discovery_invoked := false, ingested := [] }
  | none =>
      let connOut := get_connectors expiration_time env.connector_discovery now
        st0.known_connectors bpn
      let st1 : SysState := { st0 with known_connectors := connOut.known }
      if connOut.result.isEmpty then
        { result := [], state := st1, discovery_path := true,
          connector_discovery_invoked := connOut.discovery_invoked, ingested := [] }
      else
        let catalogPairs := connOut.result.filterMap (fun url =>
          (env.catalogs url).map (fun c => (url, c)))
        let ingRes := catalogPairs.foldl (fun acc p =>
          (catalogDatasets p.2).foldl (ingestDataset expiration_time now bpn p.1) acc)
          (st1.known_dtrs, [])
        let st2 : SysState := { st1 with known_dtrs := ingRes.1 }
        let result :=
          match lookupKey st2.known_dtrs bpn with
          | some entry =>
              match entry.dtr_data with
              | some data => data.map Prod.snd
              | none => []
          | none => []
        { result := result, state := st2, discovery_path := true,
          connector_discovery_invoked := connOut.discovery_invoked,
          ingested := ingRes.2 }

/-! ## `discover_shells` -/

structure PaginationOut where
  page : Nat
  next : Option TokenData
  previous : Option TokenData
deriving DecidableEq

/-- The response dict of `discover_shells`.  The source emits the descriptor
list under two spellings (snake case in the two early error branches, camel
case elsewhere); both are carried by `shellDescriptors` here. -/
structure DiscoverResult where
  shellDescriptors : List Json
  dtrs : List DtrResult
  shellsFound : Option Nat
  error : Option String
  pagination : Option PaginationOut
deriving DecidableEq

/-- The result of one `discover_shells` call plus instrumentation: the POSTs
issued, the accumulated shell-id list, the EDR invalidations, the DTR
snapshot the page iterated, and the decoded/derived page states. -/
structure DiscoverOut where
  result : DiscoverResult
  state : SysState
  lookups : List LookupCall
  accumulated : List String
  deleteCalls : Nat
  dtrsSnapshot : List DtrCacheEntryData
  currentPage : Option PageState
  newPage : Option PageState

/-- `current_page.dtr_states.get(asset_id, DtrPaginationState(asset_id))`. -/
def stateFor (p : PageState) (asset_id : String) : DtrPaginationState :=
  (lookupKey p.dtr_states asset_id).getD ⟨asset_id, none, false⟩

structure LoopAcc where
  all_shells : List String
  dtr_results : List DtrResult
  new_states : List (String × DtrPaginationState)
  st : SysState
  lookups : List LookupCall
  dels : Nat

/-- The DTR loop of `discover_shells`: exhausted DTRs are carried forward
untouched and skipped; other DTRs are processed with retry, their new
sub-cursor recorded (exhausted when falsy); once a truthy limit is reached
the accumulated list is truncated and the loop breaks, leaving later DTRs
unvisited and absent from the new state map. -/
def pageLoop (env : DiscoveryEnv) (bpn : String) (limit : Option Nat)
    (per_dtr_limit : Option Nat) (current : PageState) :
    List DtrCacheEntryData → LoopAcc → LoopAcc
  | [], acc => acc
  | dtr :: rest, acc =>
      let dtr_state := stateFor current dtr.asset_id
      if dtr_state.exhausted then
        pageLoop env bpn limit per_dtr_limit current rest
          { acc with new_states := setKey acc.new_states dtr.asset_id dtr_state }
      else
        let p := _process_dtr_with_retry env bpn dtr 2 per_dtr_limit
          dtr_state.cursor acc.st
        let new_cursor := p.result.paging_cursor
        let nst : DtrPaginationState :=
          ⟨dtr.asset_id, new_cursor, !strOptTruthy new_cursor⟩
        let acc2 : LoopAcc :=
          { all_shells := acc.all_shells ++ p.result.shells
            dtr_results := acc.dtr_results ++ [p.result]
            new_states := setKey acc.new_states dtr.asset_id nst
            st := p.state
            lookups := acc.lookups ++ p.lookups
            dels := acc.dels + p.deleteCalls }
        match limit with
        | some l =>
            if l ≠ 0 ∧ l ≤ acc2.all_shells.length then
              { acc2 with all_shells := acc2.all_shells.take l }
            else pageLoop env bpn limit per_dtr_limit current rest acc2
        | none => pageLoop env bpn limit per_dtr_limit current rest acc2

/-- The count of active (non-exhausted) DTRs of the page:
`len([dtr for dtr in dtrs if not ...exhausted])`. -/
def activeDtrCount (current : PageState) (dtrs : List DtrCacheEntryData) : Nat :=
  (dtrs.filter (fun d => !(stateFor current d.asset_id).exhausted)).length

/-- The per-DTR limit of the page, computed once before the loop:
`distribute_limit(limit or 50, active_dtrs) if limit else None` (the `or 50`
fallback of the source is unreachable, the conditional already requires a
truthy limit). -/
def perDtrLimit (limit : Option Nat) (active_dtrs : Nat) : Option Nat :=
  match limit with
  | some l => if l ≠ 0 then some (distribute_limit l active_dtrs) else none
  | none => none

/-- The loop of `discoverCore` with its initial accumulator. -/
def corePageLoop (env : DiscoveryEnv) (bpn : String) (limit : Option Nat)
    (current : PageState) (dtrs : List DtrCacheEntryData) (st : SysState) :
    LoopAcc :=
  pageLoop env bpn limit (perDtrLimit limit (activeDtrCount current dtrs))
    current dtrs ⟨[], [], [], st, [], 0⟩

/-- The page-processing tail of `discover_shells` after validation and
cursor decoding: per-DTR limit computed once before the loop, then the loop,
the new page state, the descriptor collection from the shell store, and the
pagination block. -/
def discoverCore (env : DiscoveryEnv) (bpn : String) (limit : Option Nat)
    (cursorSupplied : Bool) (current : PageState)
    (dtrs : List DtrCacheEntryData) (st : SysState) : DiscoverOut :=
  let acc := corePageLoop env bpn limit current dtrs st
  let new_page := PageState.mk acc.new_states (current.page_number + 1) limit
    (some current)
  let shell_descriptors := acc.all_shells.filterMap (fun sid =>
    lookupKey acc.st.shell_descriptors sid)
  let pagination :=
    if limit.isSome || cursorSupplied then
      let has_more := has_more_data acc.new_states
      let next := if has_more then some (encode_page_token new_page) else none
      let previous :=
        match current.previous_state with
        | some prev => some (encode_page_token prev)
        | none =>
            if current.page_number > 0 then
              some (encode_page_token (PageState.mk [] (current.page_number - 1)
                limit none))
            else none
      some ({ page := new_page.page_number, next := next, previous := previous }
        : PaginationOut)
    else none
  { result :=
      { shellDescriptors := shell_descriptors
        dtrs := acc.dtr_results
        shellsFound := some shell_descriptors.length
        error := none
        pagination := pagination }
    state := acc.st
    lookups := acc.lookups
    accumulated := acc.all_shells
    deleteCalls := acc.dels
    dtrsSnapshot := dtrs
    currentPage := some current
    newPage := some new_page }

/-- `discover_shells(counter_party_id, query_spec, limit, cursor)`.  The
cursor argument is the token in decoded form (the base64/JSON transport is
the identity on `TokenData`); a malformed cursor string, degraded by
`decode_page_token` to an empty `PageState`, is outside this embedding. -/
def discover_shells (env : DiscoveryEnv) (expiration_time now : Nat)
    (st0 : SysState) (counter_party_id : String)
    (query_spec : List (String × String)) (limit : Option Nat)
    (cursor : Option TokenData) : DiscoverOut :=
  let gd := get_dtrs env expiration_time now st0 counter_party_id
  let st := gd.state
  let earlyOut : String → DiscoverOut := fun msg =>
    let res : DiscoverResult :=
      { shellDescriptors := [], dtrs := [], shellsFound := none,
        error := some msg, pagination := none }
    { result := res, state := st, lookups := [], accumulated := [],
      deleteCalls := 0, dtrsSnapshot := gd.result, currentPage := none,
      newPage := none }
  if gd.result.isEmpty then
    earlyOut "No DTRs found"
  else if query_spec.isEmpty then
    earlyOut "No query specifications provided"
  else
    match cursor with
    | some tok =>
        let current := decode_page_token tok
        if !is_cursor_compatible current limit then
          -- The source builds this response as a dict literal binding the key
          -- "error" twice: first to the explanation that pagination must be
          -- restarted, then to "LIMIT_MISMATCH"; the second binding wins, so
          -- only the error kind survives in the returned dict.
          earlyOut "LIMIT_MISMATCH"
        else discoverCore env counter_party_id limit true current gd.result st
    | none =>
        discoverCore env counter_party_id limit false (PageState.mk [] 0 limit none)
          gd.result st

/-! ## Shared concrete scenarios -/

/-- A DTR cached under asset-A with one structured policy. -/
def dtrA : DtrCacheEntryData :=
  ⟨"https://c1", "asset-A", [Json.obj [("use", Json.str "any")]]⟩

/-- A DTR cached under asset-B with one structured policy. -/
def dtrB : DtrCacheEntryData :=
  ⟨"https://c1", "asset-B", [Json.obj [("use", Json.str "any")]]⟩

/-- A state whose DTR cache holds asset-A and asset-B for BPNL1, unexpired at
instant 1000. -/
def stAB : SysState :=
  { known_connectors := []
    known_dtrs := [("BPNL1", ⟨some 2000, some [("asset-A", dtrA), ("asset-B", dtrB)]⟩)]
    shell_descriptors := [] }

/-- An environment whose every DTR lookup reports the single shell id s1. -/
def envDup : DiscoveryEnv :=
  { connector_discovery := fun _ => none
    catalogs := fun _ => none
    lookupShells := fun _ _ _ _ _ =>
        .ok (Json.obj [("result", Json.arr [Json.str "s1"])])
    fetchDescriptor := fun _ sid =>
        if sid == "s1" then some (Json.obj [("id", Json.str "s1")]) else none }

/-- An environment whose DTR lookups report distinct shell ids per DTR. -/
def envUniq : DiscoveryEnv :=
  { connector_discovery := fun _ => none
    catalogs := fun _ => none
    lookupShells := fun _ asset _ _ _ =>
        if asset == "asset-A" then .ok (Json.obj [("result", Json.arr [Json.str "s1"])])
        else .ok (Json.obj [("result", Json.arr [Json.str "s2"])])
    fetchDescriptor := fun _ sid => some (Json.obj [("id", Json.str sid)]) }

/-- A cursor recorded with limit 3 on page 1. -/
def tokC1 : TokenData := ⟨[("asset-A", ⟨none, false⟩)], 1, some 3, none⟩

/-! ## C1: limit mismatch -/

/-- C1: at a concrete cursor recorded with limit 3 and a request limit of 5,
discoverShells fails fast: empty shellDescriptors, no per-DTR results, no
DTR lookup issued, and error kind LIMIT_MISMATCH.  But the returned dict
holds nothing else: the explanation that the caller must restart pagination
is discarded, because the source builds the response as a dict literal that
binds the key `error` twice (the explanation first, then the kind), and the
second binding wins. -/
theorem C1_limit_mismatch_eval :
    is_cursor_compatible (decode_page_token tokC1) (some 5) = false ∧
    (decode_page_token tokC1).limit = some 3 ∧
    (discover_shells envDup 60 1000 stAB "BPNL1" [("name", "v")] (some 5)
        (some tokC1)).result =
      { shellDescriptors := [], dtrs := [], shellsFound := none,
        error := some "LIMIT_MISMATCH", pagination := none } ∧
    (discover_shells envDup 60 1000 stAB "BPNL1" [("name", "v")] (some 5)
        (some tokC1)).lookups = [] := by
  refine ⟨rfl, rfl, ?_, rfl⟩
  decide

/-! ## C3: shell uniqueness per page -/

/-- C3 counterexample: when both DTRs report the same shell id s1, the page
returned by discoverShells carries the descriptor twice:
len(shellDescriptors) = 2 while only one distinct shell id was accumulated,
so len(shellDescriptors) differs from len(set(shellIds)). -/
theorem C3_duplicate_shells_counterexample :
    (discover_shells envDup 60 1000 stAB "BPNL1" [("name", "v")] none
        none).result.shellDescriptors.length = 2 ∧
    (discover_shells envDup 60 1000 stAB "BPNL1" [("name", "v")] none
        none).accumulated = ["s1", "s1"] ∧
    (discover_shells envDup 60 1000 stAB "BPNL1" [("name", "v")] none
        none).accumulated.toFinset.card = 1 := by
  refine ⟨?_, ?_, ?_⟩ <;> decide

theorem lookupKey_setKey_ne {β : Type} (m : List (String × β)) (k k2 : String)
    (v : β) (h : k ≠ k2) : lookupKey (setKey m k v) k2 = lookupKey m k2 := by
  induction m with
  | nil =>
      simp only [setKey, lookupKey, List.lookup]
      have hbeq : (k2 == k) = false := by
        simp only [beq_eq_false_iff_ne, ne_eq]
        exact fun hh => h hh.symm
      rw [hbeq]
  | cons hd tl ih =>
      obtain ⟨k', v'⟩ := hd
      by_cases hk : k' = k
      · subst hk
        simp only [setKey, if_pos rfl, lookupKey, List.lookup]
        have hbeq : (k2 == k') = false := by
          simp only [beq_eq_false_iff_ne, ne_eq]
          exact fun hh => h (hh.symm)
        rw [hbeq]
      · simp only [setKey, if_neg hk, lookupKey, List.lookup] at ih ⊢
        cases hbeq : (k2 == k') with
        | true => rfl
        | false => exact ih

theorem length_filterMap_all_isSome {α β : Type} (l : List α) (f : α → Option β)
    (h : ∀ x ∈ l, (f x).isSome) : (l.filterMap f).length = l.length := by
  induction l with
  | nil => rfl
  | cons x xs ih =>
      obtain ⟨y, hy⟩ := Option.isSome_iff_exists.mp (h x (List.mem_cons_self _ _))
      simp only [List.filterMap_cons, hy, List.length_cons]
      rw [ih (fun z hz => h z (List.mem_cons_of_mem _ hz))]

theorem discoverCore_descriptors_eq (env : DiscoveryEnv) (bpn : String)
    (limit : Option Nat) (cs : Bool) (current : PageState)
    (dtrs : List DtrCacheEntryData) (st : SysState) :
    (discoverCore env bpn limit cs current dtrs st).result.shellDescriptors =
      (discoverCore env bpn limit cs current dtrs st).accumulated.filterMap
        (fun sid =>
          lookupKey (discoverCore env bpn limit cs current dtrs st).state.shell_descriptors sid) :=
  rfl

theorem discover_shells_descriptors_eq (env : DiscoveryEnv)
    (exp now : Nat) (st0 : SysState) (bpn : String)
    (qs : List (String × String)) (limit : Option Nat) (cursor : Option TokenData) :
    (discover_shells env exp now st0 bpn qs limit cursor).result.shellDescriptors =
      (discover_shells env exp now st0 bpn qs limit cursor).accumulated.filterMap
        (fun sid =>
          lookupKey (discover_shells env exp now st0 bpn qs limit cursor).state.shell_descriptors sid) := by
  by_cases h1 : (get_dtrs env exp now st0 bpn).result.isEmpty
  · simp [discover_shells, h1]
  · by_cases h2 : qs.isEmpty
    · simp [discover_shells, h1, h2]
    · cases cursor with
      | none => simpa [discover_shells, h1, h2] using discoverCore_descriptors_eq _ _ _ _ _ _ _
      | some tok =>
          by_cases h3 : is_cursor_compatible (decode_page_token tok) limit
          · simpa [discover_shells, h1, h2, h3] using discoverCore_descriptors_eq _ _ _ _ _ _ _
          · simp [discover_shells, h1, h2, h3]

/-- C3 amended: per-page shell uniqueness holds exactly in the absence of
repeated reports: whenever the shell ids accumulated for the page are
pairwise distinct and each is present in the shell store, the returned page
satisfies len(shellDescriptors) = len(set(shellIds)); but a shell id
reported by more than one DTR appears once per report, in which case
len(shellDescriptors) exceeds the number of distinct shell ids (see the
counterexample). -/
theorem C3_unique_shells_when_distinct (env : DiscoveryEnv)
    (exp now : Nat) (st0 : SysState) (bpn : String)
    (qs : List (String × String)) (limit : Option Nat) (cursor : Option TokenData)
    (hnd : (discover_shells env exp now st0 bpn qs limit cursor).accumulated.Nodup)
    (hall : ∀ sid ∈ (discover_shells env exp now st0 bpn qs limit cursor).accumulated,
      (lookupKey (discover_shells env exp now st0 bpn qs limit cursor).state.shell_descriptors sid).isSome) :
    (discover_shells env exp now st0 bpn qs limit cursor).result.shellDescriptors.length =
      (discover_shells env exp now st0 bpn qs limit cursor).accumulated.toFinset.card := by
  rw [discover_shells_descriptors_eq]
  rw [length_filterMap_all_isSome _ _ hall]
  exact (List.toFinset_card_of_nodup hnd).symm

theorem C3_unique_shells_when_distinct_witness :
    (discover_shells envUniq 60 1000 stAB "BPNL1" [("name", "v")] none
        none).accumulated.Nodup ∧
    (∀ sid ∈ (discover_shells envUniq 60 1000 stAB "BPNL1" [("name", "v")] none
        none).accumulated,
      (lookupKey (discover_shells envUniq 60 1000 stAB "BPNL1" [("name", "v")]
          none none).state.shell_descriptors sid).isSome) ∧
    (discover_shells envUniq 60 1000 stAB "BPNL1" [("name", "v")] none
        none).result.shellDescriptors.length =
      (discover_shells envUniq 60 1000 stAB "BPNL1" [("name", "v")] none
        none).accumulated.toFinset.card :=
  ⟨by decide, by decide,
    C3_unique_shells_when_distinct envUniq 60 1000 stAB "BPNL1" [("name", "v")]
      none none (by decide) (by decide)⟩

/-! ## Lookup-trace lemmas -/

theorem runAttempts_lookups_spec (env : DiscoveryEnv) (bpn cu aid : String)
    (limit : Option Nat) (cursor : Option String) (mr : Nat) :
    ∀ (fuel attempt : Nat) (st : SysState) (res : DtrResult)
      (lookups : List LookupCall) (dels : Nat) (call : LookupCall),
      call ∈ (runAttempts env bpn cu aid limit cursor mr fuel attempt st res
        lookups dels).lookups →
      call ∈ lookups ∨
        (call.connectorUrl = cu ∧ call.assetId = aid ∧ call.limit = limit ∧
          call.cursor = cursor) := by
  intro fuel
  induction fuel with
  | zero =>
      intro attempt st res lookups dels call h
      exact Or.inl h
  | succ n ih =>
      intro attempt st res lookups dels call h
      have hmem : call ∈ lookups ++ [(⟨cu, aid, attempt, limit, cursor⟩ : LookupCall)] →
          call ∈ lookups ∨ (call.connectorUrl = cu ∧ call.assetId = aid ∧
            call.limit = limit ∧ call.cursor = cursor) := by
        intro hm
        rcases List.mem_append.mp hm with hm | hm
        · exact Or.inl hm
        · right
          simp only [List.mem_singleton] at hm
          subst hm
          exact ⟨rfl, rfl, rfl, rfl⟩
      simp only [runAttempts] at h
      split at h
      all_goals try split at h
      all_goals
        first
          | exact hmem h
          | exact (ih _ _ _ _ _ _ h).elim hmem Or.inr

theorem process_dtr_lookups_spec (env : DiscoveryEnv) (bpn : String)
    (dtr : DtrCacheEntryData) (mr : Nat) (limit : Option Nat)
    (cursor : Option String) (st : SysState) :
    ∀ call ∈ (_process_dtr_with_retry env bpn dtr mr limit cursor st).lookups,
      call.connectorUrl = dtr.connector_url ∧ call.assetId = dtr.asset_id ∧
      call.limit = limit ∧ call.cursor = cursor := by
  intro call h
  simp only [_process_dtr_with_retry] at h
  split at h
  · simp at h
  · rcases runAttempts_lookups_spec env bpn dtr.connector_url dtr.asset_id limit
      cursor mr _ _ _ _ _ _ _ h with h' | h'
    · simp at h'
    · exact h'

theorem pageLoop_lookups_spec (env : DiscoveryEnv) (bpn : String)
    (limit : Option Nat) (pdl : Option Nat) (current : PageState) :
    ∀ (dtrs : List DtrCacheEntryData) (acc : LoopAcc) (call : LookupCall),
      call ∈ (pageLoop env bpn limit pdl current dtrs acc).lookups →
      call ∈ acc.lookups ∨
        ∃ d ∈ dtrs, call.connectorUrl = d.connector_url ∧
          call.assetId = d.asset_id ∧ call.limit = pdl ∧
          call.cursor = (stateFor current d.asset_id).cursor ∧
          (stateFor current d.asset_id).exhausted = false := by
  intro dtrs
  induction dtrs with
  | nil =>
      intro acc call h
      exact Or.inl h
  | cons d rest ih =>
      intro acc call h
      simp only [pageLoop] at h
      by_cases hexh : (stateFor current d.asset_id).exhausted = true
      · rw [if_pos hexh] at h
        rcases ih _ call h with h' | ⟨d', hd', hrest⟩
        · exact Or.inl h'
        · exact Or.inr ⟨d', List.mem_cons_of_mem _ hd', hrest⟩
      · rw [if_neg hexh] at h
        have hexhf : (stateFor current d.asset_id).exhausted = false :=
          Bool.not_eq_true _ ▸ (by simpa using hexh)
        have happ : call ∈ acc.lookups ++
            (_process_dtr_with_retry env bpn d 2 pdl
              (stateFor current d.asset_id).cursor acc.st).lookups →
            call ∈ acc.lookups ∨
              ∃ d2 ∈ d :: rest, call.connectorUrl = d2.connector_url ∧
                call.assetId = d2.asset_id ∧ call.limit = pdl ∧
                call.cursor = (stateFor current d2.asset_id).cursor ∧
                (stateFor current d2.asset_id).exhausted = false := by
          intro hm
          rcases List.mem_append.mp hm with hm | hm
          · exact Or.inl hm
          · obtain ⟨h1, h2, h3, h4⟩ := process_dtr_lookups_spec env bpn d 2 pdl
              (stateFor current d.asset_id).cursor acc.st call hm
            exact Or.inr ⟨d, List.mem_cons_self _ _, h1, h2, h3,
              h2 ▸ h4, hexhf⟩
        have hcont : ∀ acc2 : LoopAcc,
            acc2.lookups = acc.lookups ++
              (_process_dtr_with_retry env bpn d 2 pdl
                (stateFor current d.asset_id).cursor acc.st).lookups →
            call ∈ (pageLoop env bpn limit pdl current rest acc2).lookups →
            call ∈ acc.lookups ∨
              ∃ d2 ∈ d :: rest, call.connectorUrl = d2.connector_url ∧
                call.assetId = d2.asset_id ∧ call.limit = pdl ∧
                call.cursor = (stateFor current d2.asset_id).cursor ∧
                (stateFor current d2.asset_id).exhausted = false := by
          intro acc2 hacc2 hm
          rcases ih acc2 call hm with hm' | ⟨d', hd', hrest⟩
          · exact happ (hacc2 ▸ hm')
          · exact Or.inr ⟨d', List.mem_cons_of_mem _ hd', hrest⟩
        split at h
        · split at h
          · exact happ h
          · exact hcont _ rfl h
        · exact hcont _ rfl h

theorem discoverCore_lookups_eq (env : DiscoveryEnv) (bpn : String)
    (limit : Option Nat) (cs : Bool) (current : PageState)
    (dtrs : List DtrCacheEntryData) (st : SysState) :
    (discoverCore env bpn limit cs current dtrs st).lookups =
      (corePageLoop env bpn limit current dtrs st).lookups := rfl

theorem discoverCore_currentPage (env : DiscoveryEnv) (bpn : String)
    (limit : Option Nat) (cs : Bool) (current : PageState)
    (dtrs : List DtrCacheEntryData) (st : SysState) :
    (discoverCore env bpn limit cs current dtrs st).currentPage = some current :=
  rfl

theorem discoverCore_dtrsSnapshot (env : DiscoveryEnv) (bpn : String)
    (limit : Option Nat) (cs : Bool) (current : PageState)
    (dtrs : List DtrCacheEntryData) (st : SysState) :
    (discoverCore env bpn limit cs current dtrs st).dtrsSnapshot = dtrs := rfl

theorem discoverCore_newPage (env : DiscoveryEnv) (bpn : String)
    (limit : Option Nat) (cs : Bool) (current : PageState)
    (dtrs : List DtrCacheEntryData) (st : SysState) :
    (discoverCore env bpn limit cs current dtrs st).newPage =
      some (PageState.mk (corePageLoop env bpn limit current dtrs st).new_states
        (current.page_number + 1) limit (some current)) := rfl

theorem discoverCore_lookups_spec (env : DiscoveryEnv) (bpn : String)
    (limit : Option Nat) (cs : Bool) (current : PageState)
    (dtrs : List DtrCacheEntryData) (st : SysState) :
    ∀ call ∈ (discoverCore env bpn limit cs current dtrs st).lookups,
      ∃ d ∈ dtrs, call.connectorUrl = d.connector_url ∧
        call.assetId = d.asset_id ∧
        call.limit = perDtrLimit limit (activeDtrCount current dtrs) ∧
        call.cursor = (stateFor current d.asset_id).cursor ∧
        (stateFor current d.asset_id).exhausted = false := by
  intro call h
  rw [discoverCore_lookups_eq] at h
  rcases pageLoop_lookups_spec env bpn limit
    (perDtrLimit limit (activeDtrCount current dtrs)) current dtrs _ call h
    with h' | h'
  · simp at h'
  · exact h'

theorem discover_shells_nocursor_eq (env : DiscoveryEnv) (exp now : Nat)
    (st0 : SysState) (bpn : String) (qs : List (String × String))
    (limit : Option Nat)
    (h1 : (get_dtrs env exp now st0 bpn).result.isEmpty = false)
    (h2 : qs.isEmpty = false) :
    discover_shells env exp now st0 bpn qs limit none =
      discoverCore env bpn limit false (PageState.mk [] 0 limit none)
        (get_dtrs env exp now st0 bpn).result
        (get_dtrs env exp now st0 bpn).state := by
  simp [discover_shells, h1, h2]

theorem discover_shells_cursor_eq (env : DiscoveryEnv) (exp now : Nat)
    (st0 : SysState) (bpn : String) (qs : List (String × String))
    (limit : Option Nat) (tok : TokenData)
    (h1 : (get_dtrs env exp now st0 bpn).result.isEmpty = false)
    (h2 : qs.isEmpty = false)
    (h3 : is_cursor_compatible (decode_page_token tok) limit = true) :
    discover_shells env exp now st0 bpn qs limit (some tok) =
      discoverCore env bpn limit true (decode_page_token tok)
        (get_dtrs env exp now st0 bpn).result
        (get_dtrs env exp now st0 bpn).state := by
  simp [discover_shells, h1, h2, h3]

theorem discover_shells_eq_core (env : DiscoveryEnv) (exp now : Nat)
    (st0 : SysState) (bpn : String) (qs : List (String × String))
    (limit : Option Nat) (cursor : Option TokenData) (cur : PageState)
    (hcur : (discover_shells env exp now st0 bpn qs limit cursor).currentPage =
      some cur) :
    ∃ cs : Bool, discover_shells env exp now st0 bpn qs limit cursor =
      discoverCore env bpn limit cs cur (get_dtrs env exp now st0 bpn).result
        (get_dtrs env exp now st0 bpn).state := by
  by_cases h1 : (get_dtrs env exp now st0 bpn).result.isEmpty
  · simp [discover_shells, h1] at hcur
  · rw [Bool.not_eq_true] at h1
    by_cases h2 : qs.isEmpty
    · simp [discover_shells, h1, h2] at hcur
    · rw [Bool.not_eq_true] at h2
      cases cursor with
      | none =>
          rw [discover_shells_nocursor_eq env exp now st0 bpn qs limit h1 h2] at hcur ⊢
          rw [discoverCore_currentPage, Option.some.injEq] at hcur
          exact ⟨false, by rw [hcur]⟩
      | some tok =>
          by_cases h3 : is_cursor_compatible (decode_page_token tok) limit
          · rw [discover_shells_cursor_eq env exp now st0 bpn qs limit tok h1 h2 h3]
              at hcur ⊢
            rw [discoverCore_currentPage, Option.some.injEq] at hcur
            exact ⟨true, by rw [hcur]⟩
          · rw [Bool.not_eq_true] at h3
            simp [discover_shells, h1, h2, h3] at hcur

/-! ## C4: per-DTR limit balance -/

/-- C4: in every discoverShells page with a requested limit L >= 1 and at
least one active (non-exhausted) DTR, the per-DTR limit is the single value
max(1, floor(L / N)) computed once before the DTR loop (N being the active
count of the decoded page state over the DTR snapshot of the page), and
every DTR lookup issued during that page carries exactly that limit. -/
theorem C4_limit_balance (env : DiscoveryEnv) (exp now : Nat) (st0 : SysState)
    (bpn : String) (qs : List (String × String)) (L : Nat)
    (cursor : Option TokenData) (cur : PageState) (hL : 1 ≤ L)
    (hcur : (discover_shells env exp now st0 bpn qs (some L) cursor).currentPage =
      some cur)
    (hN : 1 ≤ activeDtrCount cur
      (discover_shells env exp now st0 bpn qs (some L) cursor).dtrsSnapshot) :
    ∀ call ∈ (discover_shells env exp now st0 bpn qs (some L) cursor).lookups,
      call.limit = some (max 1 (L / activeDtrCount cur
        (discover_shells env exp now st0 bpn qs (some L) cursor).dtrsSnapshot)) := by
  intro call hc
  obtain ⟨cs, heq⟩ :=
    discover_shells_eq_core env exp now st0 bpn qs (some L) cursor cur hcur
  rw [heq] at hc hN ⊢
  rw [discoverCore_dtrsSnapshot] at hN ⊢
  obtain ⟨d, hd, h1, h2, h3, h4, h5⟩ :=
    discoverCore_lookups_spec env bpn (some L) cs cur _ _ call hc
  rw [h3]
  have hLne : L ≠ 0 := Nat.one_le_iff_ne_zero.mp hL
  have hpos : activeDtrCount cur (get_dtrs env exp now st0 bpn).result > 0 := hN
  simp only [perDtrLimit, if_pos hLne, distribute_limit, if_pos hpos]

theorem C4_limit_balance_witness :
    1 ≤ 5 ∧
    (discover_shells envUniq 60 1000 stAB "BPNL1" [("name", "v")] (some 5)
      none).currentPage = some (PageState.mk [] 0 (some 5) none) ∧
    1 ≤ activeDtrCount (PageState.mk [] 0 (some 5) none)
      (discover_shells envUniq 60 1000 stAB "BPNL1" [("name", "v")] (some 5)
        none).dtrsSnapshot ∧
    (∀ call ∈ (discover_shells envUniq 60 1000 stAB "BPNL1" [("name", "v")]
        (some 5) none).lookups,
      call.limit = some (max 1 (5 / activeDtrCount (PageState.mk [] 0 (some 5) none)
        (discover_shells envUniq 60 1000 stAB "BPNL1" [("name", "v")] (some 5)
          none).dtrsSnapshot))) :=
  ⟨by decide, rfl, by decide,
    C4_limit_balance envUniq 60 1000 stAB "BPNL1" [("name", "v")] 5 none
      (PageState.mk [] 0 (some 5) none) (by decide) rfl (by decide)⟩

/-! ## C7: exhaustion closure -/

theorem pageLoop_new_states_exh (env : DiscoveryEnv) (bpn : String)
    (limit : Option Nat) (pdl : Option Nat) (current : PageState) :
    ∀ (dtrs : List DtrCacheEntryData) (acc : LoopAcc) (k : String)
      (v : DtrPaginationState),
      (stateFor current k).exhausted = true →
      lookupKey (pageLoop env bpn limit pdl current dtrs acc).new_states k =
        some v →
      lookupKey acc.new_states k = some v ∨ v = stateFor current k := by
  intro dtrs
  induction dtrs with
  | nil =>
      intro acc k v _ h
      exact Or.inl h
  | cons d rest ih =>
      intro acc k v hk h
      simp only [pageLoop] at h
      by_cases hexh : (stateFor current d.asset_id).exhausted = true
      · rw [if_pos hexh] at h
        rcases ih _ k v hk h with h' | h'
        · by_cases hdk : d.asset_id = k
          · subst hdk
            simp only [lookupKey_setKey, Option.some.injEq] at h'
            exact Or.inr h'.symm
          · have hset : ∀ (m : List (String × DtrPaginationState))
                (v0 : DtrPaginationState),
                lookupKey (setKey m d.asset_id v0) k = lookupKey m k :=
              fun m v0 => lookupKey_setKey_ne m d.asset_id k v0 hdk
            simp only [hset] at h'
            exact Or.inl h'
        · exact Or.inr h'
      · rw [if_neg hexh] at h
        have hdk : d.asset_id ≠ k := by
          intro hh
          rw [hh] at hexh
          exact hexh hk
        have hset : ∀ (m : List (String × DtrPaginationState))
            (v0 : DtrPaginationState),
            lookupKey (setKey m d.asset_id v0) k = lookupKey m k :=
          fun m v0 => lookupKey_setKey_ne m d.asset_id k v0 hdk
        split at h
        · split at h
          · simp only [hset] at h
            exact Or.inl h
          · rcases ih _ k v hk h with h' | h'
            · simp only [hset] at h'
              exact Or.inl h'
            · exact Or.inr h'
        · rcases ih _ k v hk h with h' | h'
          · simp only [hset] at h'
            exact Or.inl h'
          · exact Or.inr h'

/-- C7 amended: within one discoverShells call, no lookup is issued against a
DTR whose DtrCursor carries exhausted=true in the decoded PageState, and any
entry such a DTR still has in the new PageState is its old state carried
forward unchanged; however the early break at the limit can drop an
exhausted DTR from the new PageState entirely (see the counterexample), so a
later page reached via the returned next cursor can issue a lookup against
that DTR again. -/
theorem C7_exhausted_skipped_on_page (env : DiscoveryEnv) (exp now : Nat)
    (st0 : SysState) (bpn : String) (qs : List (String × String))
    (limit : Option Nat) (cursor : Option TokenData) (cur : PageState)
    (hcur : (discover_shells env exp now st0 bpn qs limit cursor).currentPage =
      some cur) :
    (∀ call ∈ (discover_shells env exp now st0 bpn qs limit cursor).lookups,
      (stateFor cur call.assetId).exhausted = false) ∧
    (∀ np, (discover_shells env exp now st0 bpn qs limit cursor).newPage = some np →
      ∀ k v, (stateFor cur k).exhausted = true →
        lookupKey np.dtr_states k = some v → v = stateFor cur k) := by
  obtain ⟨cs, heq⟩ :=
    discover_shells_eq_core env exp now st0 bpn qs limit cursor cur hcur
  constructor
  · intro call hc
    rw [heq] at hc
    obtain ⟨d, hd, h1, h2, h3, h4, h5⟩ :=
      discoverCore_lookups_spec env bpn limit cs cur _ _ call hc
    rw [h2]
    exact h5
  · intro np hnp k v hk hv
    rw [heq, discoverCore_newPage, Option.some.injEq] at hnp
    subst hnp
    simp only [PageState.dtr_states] at hv
    rcases pageLoop_new_states_exh env bpn limit
      (perDtrLimit limit (activeDtrCount cur (get_dtrs env exp now st0 bpn).result))
      cur (get_dtrs env exp now st0 bpn).result _ k v hk hv with h' | h'
    · simp [lookupKey, List.lookup] at h'
    · exact h'

/-- An environment for the two-page exhaustion scenario: asset-A reports s1
with a next cursor cA on its first page and nothing afterwards; asset-B
reports sB whenever it is asked. -/
def env7 : DiscoveryEnv :=
  { connector_discovery := fun _ => none
    catalogs := fun _ => none
    lookupShells := fun _ asset _ _ cursor =>
        if asset == "asset-A" then
          match cursor with
          | none => .ok (Json.obj [("result", Json.arr [Json.str "s1"]),
              ("paging_metadata", Json.obj [("cursor", Json.str "cA")])])
          | some _ => .ok (Json.obj [("result", Json.arr [])])
        else .ok (Json.obj [("result", Json.arr [Json.str "sB"])])
    fetchDescriptor := fun _ sid => some (Json.obj [("id", Json.str sid)]) }

/-- A page-1 cursor whose DtrCursor for asset-B carries exhausted=true, with
asset-A still active, recorded with limit 1. -/
def tok0C7 : TokenData :=
  ⟨[("asset-A", ⟨none, false⟩), ("asset-B", ⟨none, true⟩)], 1, some 1, none⟩

/-- The first call of the scenario. -/
def out1C7 : DiscoverOut :=
  discover_shells env7 60 1000 stAB "BPNL1" [("name", "v")] (some 1) (some tok0C7)

/-- The next cursor the first call returns: the early break at limit 1
happened at asset-A, so the exhausted asset-B entry was dropped from the new
page state. -/
def tok1C7 : TokenData :=
  ⟨[("asset-A", ⟨some "cA", false⟩)], 2, some 1,
    some ⟨[("asset-A", ⟨none, false⟩), ("asset-B", ⟨none, true⟩)], 1, some 1⟩⟩

/-- The previous cursor the first call returns (the empty-fallback page 0). -/
def prevTokC7 : TokenData := ⟨[], 0, some 1, none⟩

/-- The second call of the scenario, continuing via the returned next
cursor. -/
def out2C7 : DiscoverOut :=
  discover_shells env7 60 1000 out1C7.state "BPNL1" [("name", "v")] (some 1)
    (some tok1C7)

/-- C7 counterexample: asset-B is marked exhausted in the cursor given to the
first call, yet the page reached via the returned next cursor issues a
lookup against asset-B: the early break at the limit dropped the exhausted
entry from the serialized state, so the next page treated asset-B as fresh. -/
theorem C7_exhausted_dtr_revisited :
    (stateFor (decode_page_token tok0C7) "asset-B").exhausted = true ∧
    out1C7.result.pagination = some ⟨2, some tok1C7, some prevTokC7⟩ ∧
    (⟨"https://c1", "asset-B", 0, some 1, none⟩ : LookupCall) ∈ out2C7.lookups := by
  refine ⟨rfl, ?_, ?_⟩ <;> decide

theorem C7_exhausted_skipped_on_page_witness :
    (discover_shells env7 60 1000 stAB "BPNL1" [("name", "v")] (some 1)
      (some tok0C7)).currentPage = some (decode_page_token tok0C7) ∧
    ((∀ call ∈ (discover_shells env7 60 1000 stAB "BPNL1" [("name", "v")]
        (some 1) (some tok0C7)).lookups,
      (stateFor (decode_page_token tok0C7) call.assetId).exhausted = false) ∧
    (∀ np, (discover_shells env7 60 1000 stAB "BPNL1" [("name", "v")] (some 1)
        (some tok0C7)).newPage = some np →
      ∀ k v, (stateFor (decode_page_token tok0C7) k).exhausted = true →
        lookupKey np.dtr_states k = some v →
        v = stateFor (decode_page_token tok0C7) k)) :=
  ⟨rfl, C7_exhausted_skipped_on_page env7 60 1000 stAB "BPNL1" [("name", "v")]
    (some 1) (some tok0C7) (decode_page_token tok0C7) rfl⟩

/-! ## C8: policy cleaning -/

theorem cleanPolicy_no_meta (fields : List (String × Json)) (k : String)
    (hk : k = "@id" ∨ k = "@type") : lookupKey (cleanPolicy fields) k = none := by
  apply lookupKey_eq_none_of_not_mem
  intro hmem
  obtain ⟨p, hp, hpk⟩ := List.mem_map.mp hmem
  obtain ⟨_, hcond⟩ := List.mem_filter.mp hp
  rw [Bool.and_eq_true, bne_iff_ne, bne_iff_ne] at hcond
  rcases hk with hk | hk
  · exact hcond.1 (hpk.trans hk)
  · exact hcond.2 (hpk.trans hk)

theorem extract_policies_clean (dataset : Json) :
    ∀ p ∈ _extract_policies dataset, ∀ fields, p = Json.obj fields →
      lookupKey fields "@id" = none ∧ lookupKey fields "@type" = none := by
  have hstep : ∀ (l : List Json) (acc : List Json),
      (∀ p ∈ acc, ∀ fields, p = Json.obj fields →
        lookupKey fields "@id" = none ∧ lookupKey fields "@type" = none) →
      ∀ p ∈ l.foldl (fun acc policy =>
          match policy with
          | .obj fields =>
              let clean := cleanPolicy fields
              if clean.isEmpty then acc else acc ++ [Json.obj clean]
          | .str s => acc ++ [Json.str s]
          | _ => acc) acc,
        ∀ fields, p = Json.obj fields →
          lookupKey fields "@id" = none ∧ lookupKey fields "@type" = none := by
    intro l
    induction l with
    | nil =>
        intro acc hacc p hp
        exact hacc p hp
    | cons x rest ih =>
        intro acc hacc p hp
        refine ih _ ?_ p hp
        intro q hq fields hf
        cases x with
        | obj xfields =>
            simp only [] at hq
            split at hq
            · exact hacc q hq fields hf
            · rcases List.mem_append.mp hq with hq | hq
              · exact hacc q hq fields hf
              · simp only [List.mem_singleton] at hq
                subst hq
                obtain rfl : cleanPolicy xfields = fields := Json.obj.inj hf
                exact ⟨cleanPolicy_no_meta xfields "@id" (Or.inl rfl),
                  cleanPolicy_no_meta xfields "@type" (Or.inr rfl)⟩
        | str s =>
            rcases List.mem_append.mp hq with hq | hq
            · exact hacc q hq fields hf
            · simp only [List.mem_singleton] at hq
              subst hq
              simp at hf
        | null => exact hacc q hq fields hf
        | bool b => exact hacc q hq fields hf
        | num n => exact hacc q hq fields hf
        | arr elems => exact hacc q hq fields hf
  intro p hp
  exact hstep _ [] (by intro q hq; simp at hq) p hp

theorem ingestDataset_calls (exp now : Nat) (bpn cu : String)
    (acc : List (String × DtrBpnEntry) × List IngestCall) (dataset : Json) :
    ∀ call ∈ (ingestDataset exp now bpn cu acc dataset).2,
      call ∈ acc.2 ∨ call.policies = _extract_policies dataset := by
  intro call h
  simp only [ingestDataset] at h
  split at h
  · split at h
    · exact Or.inl h
    · rcases List.mem_append.mp h with h | h
      · exact Or.inl h
      · simp only [List.mem_singleton] at h
        subst h
        exact Or.inr rfl
  · exact Or.inl h

theorem datasets_fold_calls (exp now : Nat) (bpn cu : String) :
    ∀ (ds : List Json) (acc : List (String × DtrBpnEntry) × List IngestCall),
      ∀ call ∈ (ds.foldl (ingestDataset exp now bpn cu) acc).2,
        call ∈ acc.2 ∨ ∃ dataset, call.policies = _extract_policies dataset := by
  intro ds
  induction ds with
  | nil =>
      intro acc call h
      exact Or.inl h
  | cons d rest ih =>
      intro acc call h
      rw [List.foldl_cons] at h
      rcases ih _ call h with h' | h'
      · rcases ingestDataset_calls exp now bpn cu acc d call h' with h'' | h''
        · exact Or.inl h''
        · exact Or.inr ⟨d, h''⟩
      · exact Or.inr h'

theorem catalogs_fold_calls (exp now : Nat) (bpn : String) :
    ∀ (pairs : List (String × Json))
      (acc : List (String × DtrBpnEntry) × List IngestCall),
      ∀ call ∈ (pairs.foldl (fun acc p =>
          (catalogDatasets p.2).foldl (ingestDataset exp now bpn p.1) acc) acc).2,
        call ∈ acc.2 ∨ ∃ dataset, call.policies = _extract_policies dataset := by
  intro pairs
  induction pairs with
  | nil =>
      intro acc call h
      exact Or.inl h
  | cons pr rest ih =>
      intro acc call h
      rw [List.foldl_cons] at h
      rcases ih _ call h with h' | h'
      · exact datasets_fold_calls exp now bpn pr.1 (catalogDatasets pr.2) acc call h'
      · exact Or.inr h'

/-- C8: every structured (object-valued) policy that the catalog ingestion
of getDtrs installs via addDtr contains neither the key at-id nor the key
at-type, whatever dataset shape the extractor accepted it from. -/
theorem C8_policies_cleaned (env : DiscoveryEnv) (exp now : Nat)
    (st0 : SysState) (bpn : String) :
    ∀ call ∈ (get_dtrs env exp now st0 bpn).ingested,
      ∀ p ∈ call.policies, ∀ fields, p = Json.obj fields →
        lookupKey fields "@id" = none ∧ lookupKey fields "@type" = none := by
  intro call hc p hp fields hf
  have hds : call ∈ ([] : List IngestCall) ∨
      ∃ dataset, call.policies = _extract_policies dataset := by
    simp only [get_dtrs] at hc
    split at hc
    · exact Or.inl hc
    · split at hc
      · exact Or.inl hc
      · exact catalogs_fold_calls exp now bpn _ _ call hc
  rcases hds with hds | ⟨dataset, hds⟩
  · simp at hds
  · rw [hds] at hp
    exact extract_policies_clean dataset p hp fields hf

/-- A DTR-typed dataset whose policy still carries the metadata keys. -/
def dirtyDataset : Json :=
  Json.obj [("@id", Json.str "asset-C"),
    ("dct:type", Json.obj [("@id", Json.str dct_type)]),
    ("odrl:hasPolicy", Json.obj [("@id", Json.str "p1"),
      ("@type", Json.str "Set"), ("permission", Json.arr [])])]

/-- An environment whose single connector advertises `dirtyDataset`. -/
def env8 : DiscoveryEnv :=
  { connector_discovery := fun _ => some ["https://c1"]
    catalogs := fun _ => some (Json.obj [("dcat:dataset", dirtyDataset)])
    lookupShells := fun _ _ _ _ _ => .fail 500
    fetchDescriptor := fun _ _ => none }

def st8 : SysState := ⟨[], [], []⟩

theorem C8_policies_cleaned_witness :
    (⟨"BPNL1", "https://c1", "asset-C",
        [Json.obj [("permission", Json.arr [])]]⟩ : IngestCall)
      ∈ (get_dtrs env8 60 1000 st8 "BPNL1").ingested ∧
    Json.obj [("permission", Json.arr [])]
      ∈ [Json.obj [("permission", Json.arr [])]] ∧
    (lookupKey [("permission", Json.arr [])] "@id" = none ∧
      lookupKey [("permission", Json.arr [])] "@type" = none) :=
  ⟨by decide, by decide,
    C8_policies_cleaned env8 60 1000 st8 "BPNL1"
      ⟨"BPNL1", "https://c1", "asset-C", [Json.obj [("permission", Json.arr [])]]⟩
      (by decide) (Json.obj [("permission", Json.arr [])]) (by decide)
      [("permission", Json.arr [])] rfl⟩

/-! ## C9: empty discovery results are not cached -/

theorem get_connectors_empty_unchanged (exp : Nat)
    (discovery : String → Option (List String)) (now : Nat)
    (known : List (String × ConnectorEntry)) (bpn : String)
    (h : (get_connectors exp discovery now known bpn).result = []) :
    (get_connectors exp discovery now known bpn).known = known := by
  cases hl : connector_cache_lookup now known bpn with
  | some l => simp [get_connectors, hl]
  | none =>
      cases hd : discovery bpn with
      | none => simp [get_connectors, hl, hd]
      | some cs =>
          by_cases hcs : cs.isEmpty
          · simp [get_connectors, hl, hd, hcs]
          · exfalso
            have hres : (get_connectors exp discovery now known bpn).result = cs := by
              simp [get_connectors, hl, hd, hcs]
            rw [h] at hres
            exact hcs (by simp [← hres])

/-- C9: on a cache miss, a null or empty discovery result makes
getConnectors return the empty list with the cache untouched, after having
consulted the discovery port; likewise a getDtrs whose connector resolution
yields no connectors returns the empty list, leaves the whole state
untouched, and has run the discovery path, so the next call repeats
discovery instead of hitting a poison entry. -/
theorem C9_empty_discovery_no_poison :
    (∀ (exp : Nat) (discovery : String → Option (List String)) (now : Nat)
        (known : List (String × ConnectorEntry)) (bpn : String),
      connector_cache_lookup now known bpn = none →
      (discovery bpn = none ∨ discovery bpn = some []) →
      get_connectors exp discovery now known bpn =
        { result := [], known := known, discovery_invoked := true }) ∧
    (∀ (env : DiscoveryEnv) (exp now : Nat) (st0 : SysState) (bpn : String),
      dtr_cache_lookup now st0.known_dtrs bpn = none →
      (get_connectors exp env.connector_discovery now
        st0.known_connectors bpn).result = [] →
      (get_dtrs env exp now st0 bpn).result = [] ∧
      (get_dtrs env exp now st0 bpn).state = st0 ∧
      (get_dtrs env exp now st0 bpn).discovery_path = true) := by
  constructor
  · intro exp discovery now known bpn hmiss hd
    rcases hd with hd | hd
    · simp [get_connectors, hmiss, hd]
    · simp [get_connectors, hmiss, hd]
  · intro env exp now st0 bpn hmiss hconn
    have hkn := get_connectors_empty_unchanged exp env.connector_discovery now
      st0.known_connectors bpn hconn
    have hisEmpty : (get_connectors exp env.connector_discovery now
        st0.known_connectors bpn).result.isEmpty = true := by
      simp [hconn]
    refine ⟨?_, ?_, ?_⟩ <;> simp [get_dtrs, hmiss, hisEmpty, hkn]

/-- An environment whose every port fails or returns nothing. -/
def envNone : DiscoveryEnv :=
  { connector_discovery := fun _ => none
    catalogs := fun _ => none
    lookupShells := fun _ _ _ _ _ => .fail 500
    fetchDescriptor := fun _ _ => none }

theorem C9_empty_discovery_no_poison_witness :
    connector_cache_lookup 1000 [] "BPNL_EMPTY" = none ∧
    get_connectors 60 (fun _ => none) 1000 [] "BPNL_EMPTY" =
      { result := [], known := [], discovery_invoked := true } ∧
    dtr_cache_lookup 1000 st8.known_dtrs "BPNL_EMPTY" = none ∧
    (get_connectors 60 envNone.connector_discovery 1000
      st8.known_connectors "BPNL_EMPTY").result = [] ∧
    ((get_dtrs envNone 60 1000 st8 "BPNL_EMPTY").result = [] ∧
      (get_dtrs envNone 60 1000 st8 "BPNL_EMPTY").state = st8 ∧
      (get_dtrs envNone 60 1000 st8 "BPNL_EMPTY").discovery_path = true) :=
  ⟨rfl,
    C9_empty_discovery_no_poison.1 60 (fun _ => none) 1000 [] "BPNL_EMPTY" rfl
      (Or.inl rfl),
    rfl, rfl,
    C9_empty_discovery_no_poison.2 envNone 60 1000 st8 "BPNL_EMPTY" rfl rfl⟩

/-! ## C5: HTTP 500 retries and negative caching -/

/-- The asset no longer appears in the DTR map the cache holds for the
BPN. -/
def dtrRemoved (known : List (String × DtrBpnEntry)) (bpn asset_id : String) :
    Prop :=
  ∀ entry, lookupKey known bpn = some entry →
    ∀ data, entry.dtr_data = some data → lookupKey data asset_id = none

/-- The DTR map cached for the BPN has pairwise-distinct asset ids (as every
Python dict has). -/
def dtrDataNodup (known : List (String × DtrBpnEntry)) (bpn : String) : Prop :=
  ∀ entry, lookupKey known bpn = some entry →
    ∀ data, entry.dtr_data = some data → (data.map Prod.fst).Nodup

theorem delete_connection_removes (st : SysState) (bpn asset_id : String)
    (hnd : dtrDataNodup st.known_dtrs bpn) :
    dtrRemoved (_delete_connection st bpn asset_id).known_dtrs bpn asset_id := by
  intro entry he data hd
  simp only [_delete_connection] at he
  cases hl : lookupKey st.known_dtrs bpn with
  | none =>
      simp only [hl] at he
      cases he
  | some entry0 =>
      cases hdd : entry0.dtr_data with
      | none =>
          simp only [hl, hdd] at he
          obtain rfl : entry0 = entry := Option.some.inj he
          rw [hdd] at hd
          cases hd
      | some data0 =>
          by_cases hin : (lookupKey data0 asset_id).isSome = true
          · simp only [hl, hdd, hin, if_pos] at he
            rw [lookupKey_setKey] at he
            obtain rfl := Option.some.inj he
            simp only [] at hd
            obtain rfl : eraseKey data0 asset_id = data := Option.some.inj hd
            exact lookupKey_eraseKey_self data0 asset_id (hnd entry0 hl data0 hdd)
          · simp only [hl, hdd, hin] at he
            rw [if_neg (by simp [hin])] at he
            rw [hl] at he
            obtain rfl : entry0 = entry := Option.some.inj he
            rw [hdd] at hd
            obtain rfl : data0 = data := Option.some.inj hd
            simpa using hin

theorem delete_connection_preserves (st : SysState) (bpn asset_id : String)
    (hrem : dtrRemoved st.known_dtrs bpn asset_id) :
    (_delete_connection st bpn asset_id).known_dtrs = st.known_dtrs := by
  simp only [_delete_connection]
  cases hl : lookupKey st.known_dtrs bpn with
  | none => rfl
  | some entry0 =>
      cases hdd : entry0.dtr_data with
      | none => simp [hdd]
      | some data0 =>
          have hnone : lookupKey data0 asset_id = none := hrem entry0 hl data0 hdd
          simp [hdd, hnone]

/-- C5 amended: a DTR answering HTTP 500 on every shellsByAssetLink attempt
is tried exactly 3 times (maxRetries = 2), the connection is invalidated
after every failed attempt (3 EDR deletions), the DTR is removed from the
DTR cache, and its per-DTR result carries status=failed and
error="HTTP 500 after 3 attempts"; a subsequent getDtrs runs the discovery
path again whenever the cache no longer holds an unexpired non-empty DTR map
for the BPN (in particular when the failed DTR was the only one cached), but
while other unexpired DTRs remain cached, getDtrs serves them from the cache
without re-discovering the removed DTR (see the counterexample). -/
theorem C5_http500_retry_and_negative_cache :
    (∀ (env : DiscoveryEnv) (bpn : String) (dtr : DtrCacheEntryData)
        (limit : Option Nat) (cursor : Option String) (st : SysState),
      (∀ attempt, env.lookupShells dtr.connector_url dtr.asset_id attempt limit
        cursor = .fail 500) →
      dtr.policies ≠ [] →
      dtrDataNodup st.known_dtrs bpn →
      ((_process_dtr_with_retry env bpn dtr 2 limit cursor st).result.status =
          "failed" ∧
        (_process_dtr_with_retry env bpn dtr 2 limit cursor st).result.error =
          some "HTTP 500 after 3 attempts" ∧
        (_process_dtr_with_retry env bpn dtr 2 limit cursor st).lookups.length = 3 ∧
        (_process_dtr_with_retry env bpn dtr 2 limit cursor st).deleteCalls = 3 ∧
        dtrRemoved (_process_dtr_with_retry env bpn dtr 2 limit cursor
          st).state.known_dtrs bpn dtr.asset_id)) ∧
    (∀ (env : DiscoveryEnv) (exp now : Nat) (st0 : SysState) (bpn : String),
      dtr_cache_lookup now st0.known_dtrs bpn = none →
      (get_dtrs env exp now st0 bpn).discovery_path = true) := by
  constructor
  · intro env bpn dtr limit cursor st h hpol hnd
    have hne : dtr.policies.isEmpty = false := by
      cases hp : dtr.policies with
      | nil => exact absurd hp hpol
      | cons a l => rfl
    have hrem1 := delete_connection_removes st bpn dtr.asset_id hnd
    have hpres2 := delete_connection_preserves (_delete_connection st bpn
      dtr.asset_id) bpn dtr.asset_id hrem1
    have hrem2 : dtrRemoved (_delete_connection (_delete_connection st bpn
        dtr.asset_id) bpn dtr.asset_id).known_dtrs bpn dtr.asset_id := by
      rw [hpres2]
      exact hrem1
    have hpres3 := delete_connection_preserves (_delete_connection
      (_delete_connection st bpn dtr.asset_id) bpn dtr.asset_id) bpn
      dtr.asset_id hrem2
    have hrem3 : dtrRemoved (_delete_connection (_delete_connection
        (_delete_connection st bpn dtr.asset_id) bpn dtr.asset_id) bpn
        dtr.asset_id).known_dtrs bpn dtr.asset_id := by
      rw [hpres3]
      exact hrem2
    refine ⟨?_, ?_, ?_, ?_, ?_⟩ <;>
      simp only [_process_dtr_with_retry, hne, Bool.false_eq_true, if_neg,
        runAttempts, h] <;>
      first
        | rfl
        | decide
        | exact hrem3
  · intro env exp now st0 bpn hmiss
    by_cases hc : (get_connectors exp env.connector_discovery now
        st0.known_connectors bpn).result.isEmpty
    · simp [get_dtrs, hmiss, hc]
    · simp [get_dtrs, hmiss, hc]

/-- A state whose DTR cache holds only asset-A for BPNL1 (unexpired at
instant 1000). -/
def st5 : SysState :=
  { known_connectors := []
    known_dtrs := [("BPNL1", ⟨some 2000, some [("asset-A", dtrA)]⟩)]
    shell_descriptors := [] }

/-- An environment where asset-A answers HTTP 500 on every attempt and
asset-B answers normally. -/
def env500 : DiscoveryEnv :=
  { connector_discovery := fun _ => none
    catalogs := fun _ => none
    lookupShells := fun _ asset _ _ _ =>
        if asset == "asset-A" then .fail 500
        else .ok (Json.obj [("result", Json.arr [Json.str "sB"])])
    fetchDescriptor := fun _ sid => some (Json.obj [("id", Json.str sid)]) }

theorem C5_http500_retry_and_negative_cache_witness :
    (∀ attempt, env500.lookupShells dtrA.connector_url dtrA.asset_id attempt
      (some 1) none = .fail 500) ∧
    dtrA.policies ≠ [] ∧
    ((_process_dtr_with_retry env500 "BPNL1" dtrA 2 (some 1) none
        st5).result.status = "failed" ∧
      (_process_dtr_with_retry env500 "BPNL1" dtrA 2 (some 1) none
        st5).result.error = some "HTTP 500 after 3 attempts" ∧
      (_process_dtr_with_retry env500 "BPNL1" dtrA 2 (some 1) none
        st5).lookups.length = 3 ∧
      (_process_dtr_with_retry env500 "BPNL1" dtrA 2 (some 1) none
        st5).deleteCalls = 3 ∧
      dtrRemoved (_process_dtr_with_retry env500 "BPNL1" dtrA 2 (some 1) none
        st5).state.known_dtrs "BPNL1" dtrA.asset_id) ∧
    dtr_cache_lookup 1000 (_process_dtr_with_retry env500 "BPNL1" dtrA 2
      (some 1) none st5).state.known_dtrs "BPNL1" = none ∧
    (get_dtrs envNone 60 1000
      { known_connectors := []
        known_dtrs := (_process_dtr_with_retry env500 "BPNL1" dtrA 2 (some 1)
          none st5).state.known_dtrs
        shell_descriptors := [] } "BPNL1").discovery_path = true := by
  have hnd : dtrDataNodup st5.known_dtrs "BPNL1" := by
    intro entry he data hd
    obtain rfl : (⟨some 2000, some [("asset-A", dtrA)]⟩ : DtrBpnEntry) = entry :=
      Option.some.inj he
    obtain rfl : [("asset-A", dtrA)] = data := Option.some.inj hd
    decide
  refine ⟨fun _ => rfl, by decide, ?_, by decide, ?_⟩
  · exact C5_http500_retry_and_negative_cache.1 env500 "BPNL1" dtrA (some 1)
      none st5 (fun _ => rfl) (by decide) hnd
  · exact C5_http500_retry_and_negative_cache.2 envNone 60 1000 _ "BPNL1"
      (by decide)

/-- The first call of the multi-DTR scenario: asset-A fails with 500 three
times and is removed, asset-B succeeds. -/
def out5 : DiscoverOut :=
  discover_shells env500 60 1000 stAB "BPNL1" [("name", "v")] none none

/-- The subsequent getDtrs of the scenario. -/
def gd5 : GetDtrsOut := get_dtrs env500 60 1000 out5.state "BPNL1"

/-- C5 counterexample: after asset-A answered HTTP 500 on all 3 attempts and
was removed from the cache (its per-DTR result carrying status=failed and
the 3-attempts error), the subsequent getDtrs does NOT re-discover it: the
surviving asset-B entry is unexpired, so getDtrs returns it from the cache
with no discovery run at all. -/
theorem C5_no_rediscovery_counterexample :
    (out5.result.dtrs.map (fun r => (r.assetId, r.status, r.error))) =
      [("asset-A", "failed", some "HTTP 500 after 3 attempts"),
       ("asset-B", "connected", none)] ∧
    out5.deleteCalls = 3 ∧
    lookupKey out5.state.known_dtrs "BPNL1" =
      some ⟨some 2000, some [("asset-B", dtrB)]⟩ ∧
    gd5.discovery_path = false ∧
    gd5.connector_discovery_invoked = false ∧
    gd5.result = [dtrB] := by
  refine ⟨?_, ?_, ?_, ?_, ?_, ?_⟩ <;> decide

end ICH
